import Mathlib

/-!
# Reference-counted attach/detach of a VF representor port

A shallow embedding of `pkg/networkservice/mechanisms/kernel/sriov.go`
(`setupVF`, the Attach operation, and `resetVF`, the Detach operation),
followed by the properties proved about the two functions.

Modelling conventions.

* The refcount table `map[string]int` is a lookup function
  `String → Option Int`; `none` is an absent key.  The table is assumed to be
  a non-nil map.  A count is a Go `int`, taken at its width of 64 bits
  (linux/amd64, linux/arm64): a value of `Int` between `minInt` and `maxInt`.  The
  increment `parentIfRefCount[vfRepresentor]++` wraps around (`wrapInt`), so
  `maxInt` becomes `minInt`; the decrement `count - 1` is taken only under the
  guard `count > 0`, where it stays in range.
* The functions of other packages that touch the outside world
  (`sriovnet.GetVfRepresentor`, `util.RunOVSVsctl`,
  `ovsutil.GetInterfaceOfPort`) are the fields of an `Env`, one per call of
  `setupVF`/`resetVF`; each of the two functions calls each of them at most
  once, so a function of the arguments covers every outcome.
* Every external call that is issued is recorded, in order, in the `calls`
  field of the result; lines written with `logger.Errorf` are in `logs`.
* Pointers (`conn`, `portInfo`) are assumed non-nil.
-/

namespace Sriov

/-! ## The refcount table -/

/-- The refcount table `map[string]int`; `none` is an absent key. -/
abbrev Registry := String → Option Int

/-- The table with no entry. -/
def Registry.empty : Registry := fun _ => none

/-- Go `m[k] = v`. -/
def Registry.store (m : Registry) (k : String) (v : Int) : Registry :=
  fun x => if x = k then some v else m x

/-- Go `delete(m, k)`. -/
def Registry.delete (m : Registry) (k : String) : Registry :=
  fun x => if x = k then none else m x

/-- Go `m[k]` read as a value: the zero value when the key is absent. -/
def Registry.get (m : Registry) (k : String) : Int :=
  (m k).getD 0

/-- The largest value of a Go `int` (64 bits): `math.MaxInt64`. -/
def maxInt : Int := 9223372036854775807

/-- The smallest value of a Go `int` (64 bits): `math.MinInt64`. -/
def minInt : Int := -9223372036854775808

/-- The two's complement value of `x` in 64 bits: what Go integer arithmetic
leaves when the exact result is `x`. -/
def wrapInt (x : Int) : Int :=
  (x + 9223372036854775808) % 18446744073709551616 - 9223372036854775808

/-- Every count in the table is less than `n`. -/
def Registry.countsBelow (m : Registry) (n : Int) : Prop :=
  ∀ k c, m k = some c → c < n

/-! ## Data -/

/-- The VF descriptor `vfconfig.VFConfig`, the two fields `setupVF` reads. -/
structure VFConfig where
  PFInterfaceName : String
  VFNum : Int
  deriving DecidableEq, Repr

/-- The record `ifnames.OvsPortInfo`, the four fields `setupVF` and `resetVF` use. -/
structure OvsPortInfo where
  PortName : String
  PortNo : Int
  VlanID : Nat
  IsVfRepresentor : Bool
  deriving DecidableEq, Repr

/-- The kernel mechanism of a connection, seen through `GetVLAN`. -/
structure Mechanism where
  VLAN : Nat
  deriving DecidableEq, Repr

/-- The connection, seen through `kernel.ToMechanism(conn.GetMechanism())`:
`none` when that call returns nil. -/
structure Connection where
  kernelMechanism : Option Mechanism
  deriving DecidableEq, Repr

/-- The per-connection context: one Port Info slot and one VF descriptor slot
for each role (client, server). -/
structure Ctx where
  portInfoClient : Option OvsPortInfo
  portInfoServer : Option OvsPortInfo
  vfConfigClient : Option VFConfig
  vfConfigServer : Option VFConfig
  deriving DecidableEq, Repr

/-- Modelled from the spec: `ifnames.Load` (package `pkg/tools/ifnames`, not among
the sources) reads the per-connection, per-role Port Info slot. -/
def ifnames.Load (ctx : Ctx) (isClient : Bool) : Option OvsPortInfo :=
  if isClient then ctx.portInfoClient else ctx.portInfoServer

/-- Modelled from the spec: `ifnames.Store` (package `pkg/tools/ifnames`, not among
the sources) writes the per-connection, per-role Port Info slot. -/
def ifnames.Store (ctx : Ctx) (isClient : Bool) (value : OvsPortInfo) : Ctx :=
  if isClient then { ctx with portInfoClient := some value }
  else { ctx with portInfoServer := some value }

/-- Modelled from the spec: `vfconfig.Load` reads the per-role VF descriptor slot. -/
def vfconfig.Load (ctx : Ctx) (isClient : Bool) : Option VFConfig :=
  if isClient then ctx.vfConfigClient else ctx.vfConfigServer

/-! ## The outside world -/

/-- An external call issued by the code. -/
inductive Call where
  | GetVfRepresentor (pfInterfaceName : String) (vfNum : Int)
  | RunOVSVsctl (args : List String)
  | GetInterfaceOfPort (port : String)
  deriving DecidableEq, Repr

/-- What `util.RunOVSVsctl` returns: stdout, stderr and the error (`none` is nil). -/
structure CmdOut where
  stdout : String
  stderr : String
  err : Option String
  deriving DecidableEq, Repr

/-- The outcomes of the external calls during one call of `setupVF` or `resetVF`. -/
structure Env where
  GetVfRepresentor : String → Int → Except String String
  RunOVSVsctl : List String → CmdOut
  GetInterfaceOfPort : String → Except String Int

/-- The errors the two functions return. -/
inductive Error where
  /-- `errors.New("vfconfig not found")` -/
  | vfconfigNotFound
  /-- `errors.Wrapf(err, "failed to find VF representor for uplink %s", pf)` -/
  | representorNotFound (pf : String) (cause : String)
  /-- `errors.Wrapf(err1, "Failed to add representor port %s to %s, ...")` -/
  | addPortFailed (port bridge stdout stderr : String) (cause : String)
  /-- the error of `ovsutil.GetInterfaceOfPort`, returned as it is -/
  | portQueryFailed (cause : String)
  /-- `errors.Wrapf(err, "Failed to delete port %s from %s, ...")` -/
  | delPortFailed (port bridge stdout stderr : String) (cause : String)
  deriving DecidableEq, Repr

/-- The lines written with `logger.Errorf`. -/
inductive LogLine where
  | addPort (port bridge stdout stderr : String) (cause : String)
  | portNumber (port : String) (cause : String)
  | delPort (port bridge stdout stderr : String) (cause : String)
  deriving DecidableEq, Repr

/-- The arguments of the add-port command (line 62). -/
def addPortArgs (bridgeName vfRepresentor : String) : List String :=
  ["--", "--may-exist", "add-port", bridgeName, vfRepresentor]

/-- The arguments of the del-port command (line 95). -/
def delPortArgs (bridgeName portName : String) : List String :=
  ["del-port", bridgeName, portName]

/-- An add-port command: `ovs-vsctl -- --may-exist add-port ...`. -/
def Call.isAddPort : Call → Bool
  | .RunOVSVsctl args => decide (args.take 3 = ["--", "--may-exist", "add-port"])
  | _ => false

/-- A del-port command: `ovs-vsctl del-port ...`. -/
def Call.isDelPort : Call → Bool
  | .RunOVSVsctl args => decide (args.head? = some "del-port")
  | _ => false

/-- A command to the bridge: `ovs-vsctl` or the port-number query. -/
def Call.isBridge : Call → Bool
  | .RunOVSVsctl _ => true
  | .GetInterfaceOfPort _ => true
  | .GetVfRepresentor _ _ => false

/-! ## Attach: `setupVF` -/

/-- The result of `setupVF`: the returned error (`none` is nil), the context and
the table after the call, the external calls issued and the lines logged. -/
structure SetupOut where
  err : Option Error
  ctx : Ctx
  parentIfRefCount : Registry
  calls : List Call
  logs : List LogLine

/-- Lines 70-80 of `setupVF`: increment, port-number query, publication.
`pre` holds the external calls issued so far. -/
def setupVF.publish (env : Env) (ctx : Ctx) (mechanism : Mechanism)
    (parentIfRefCount : Registry) (isClient : Bool) (vfRepresentor : String)
    (pre : List Call) : SetupOut :=
  let m := Registry.store parentIfRefCount vfRepresentor
    (wrapInt (Registry.get parentIfRefCount vfRepresentor + 1))
  match env.GetInterfaceOfPort vfRepresentor with
  | .error e =>
    { err := some (.portQueryFailed e), ctx := ctx, parentIfRefCount := m,
      calls := pre ++ [.GetInterfaceOfPort vfRepresentor],
      logs := [.portNumber vfRepresentor e] }
  | .ok portNo =>
    { err := none,
      ctx := ifnames.Store ctx isClient
        { PortName := vfRepresentor, PortNo := portNo, VlanID := mechanism.VLAN,
          IsVfRepresentor := true },
      parentIfRefCount := m,
      calls := pre ++ [.GetInterfaceOfPort vfRepresentor],
      logs := [] }

/-- Lines 61-80 of `setupVF`, once the representor name is known. -/
def setupVF.attach (env : Env) (ctx : Ctx) (mechanism : Mechanism) (bridgeName : String)
    (parentIfRefCount : Registry) (isClient : Bool) (vfRepresentor : String)
    (pre : List Call) : SetupOut :=
  match parentIfRefCount vfRepresentor with
  | some _ =>
    setupVF.publish env ctx mechanism parentIfRefCount isClient vfRepresentor pre
  | none =>
    let out := env.RunOVSVsctl (addPortArgs bridgeName vfRepresentor)
    match out.err with
    | some err1 =>
      { err := some (.addPortFailed vfRepresentor bridgeName out.stdout out.stderr err1),
        ctx := ctx, parentIfRefCount := parentIfRefCount,
        calls := pre ++ [.RunOVSVsctl (addPortArgs bridgeName vfRepresentor)],
        logs := [.addPort vfRepresentor bridgeName out.stdout out.stderr err1] }
    | none =>
      setupVF.publish env ctx mechanism
        (Registry.store parentIfRefCount vfRepresentor 0) isClient vfRepresentor
        (pre ++ [.RunOVSVsctl (addPortArgs bridgeName vfRepresentor)])

/-- The function `setupVF` (lines 39-81). -/
def setupVF (env : Env) (ctx : Ctx) (conn : Connection) (bridgeName : String)
    (parentIfRefCount : Registry) (isClient : Bool) : SetupOut :=
  match conn.kernelMechanism with
  | none =>
    { err := none, ctx := ctx, parentIfRefCount := parentIfRefCount, calls := [], logs := [] }
  | some mechanism =>
    match ifnames.Load ctx isClient with
    | some _ =>
      { err := none, ctx := ctx, parentIfRefCount := parentIfRefCount, calls := [], logs := [] }
    | none =>
      match vfconfig.Load ctx isClient with
      | none =>
        { err := some .vfconfigNotFound, ctx := ctx, parentIfRefCount := parentIfRefCount,
          calls := [], logs := [] }
      | some vfConfig =>
        match env.GetVfRepresentor vfConfig.PFInterfaceName vfConfig.VFNum with
        | .error e =>
          { err := some (.representorNotFound vfConfig.PFInterfaceName e), ctx := ctx,
            parentIfRefCount := parentIfRefCount,
            calls := [.GetVfRepresentor vfConfig.PFInterfaceName vfConfig.VFNum],
            logs := [] }
        | .ok vfRepresentor =>
          setupVF.attach env ctx mechanism bridgeName parentIfRefCount isClient vfRepresentor
            [.GetVfRepresentor vfConfig.PFInterfaceName vfConfig.VFNum]

/-! ## Detach: `resetVF` -/

/-- The result of `resetVF`: the returned error (`none` is nil), the table after
the call, the external calls issued and the lines logged. -/
structure ResetOut where
  err : Option Error
  parentIfRefCountMap : Registry
  calls : List Call
  logs : List LogLine

/-- Lines 85-91 of `resetVF`: the local `refCount` and the table after the
conditional decrement. -/
def resetVF.decrement (parentIfRefCountMap : Registry) (portName : String) :
    Int × Registry :=
  match parentIfRefCountMap portName with
  | some count =>
    if count > 0 then (count - 1, Registry.store parentIfRefCountMap portName (count - 1))
    else (0, parentIfRefCountMap)
  | none => (0, parentIfRefCountMap)

/-- The function `resetVF` (lines 83-106). -/
def resetVF (env : Env) (portInfo : OvsPortInfo) (parentIfRefCountMap : Registry)
    (bridgeName : String) (isL2Connect : Bool) : ResetOut :=
  let refCount := (resetVF.decrement parentIfRefCountMap portInfo.PortName).1
  let m := (resetVF.decrement parentIfRefCountMap portInfo.PortName).2
  if refCount = 0 then
    if !isL2Connect then
      let out := env.RunOVSVsctl (delPortArgs bridgeName portInfo.PortName)
      match out.err with
      | some err =>
        { err := some (.delPortFailed portInfo.PortName bridgeName out.stdout out.stderr err),
          parentIfRefCountMap := m,
          calls := [.RunOVSVsctl (delPortArgs bridgeName portInfo.PortName)],
          logs := [.delPort portInfo.PortName bridgeName out.stdout out.stderr err] }
      | none =>
        { err := none, parentIfRefCountMap := Registry.delete m portInfo.PortName,
          calls := [.RunOVSVsctl (delPortArgs bridgeName portInfo.PortName)], logs := [] }
    else
      { err := none, parentIfRefCountMap := Registry.delete m portInfo.PortName,
        calls := [], logs := [] }
  else
    { err := none, parentIfRefCountMap := m, calls := [], logs := [] }

/-! ## Sequences of calls on one table -/

/-- One Attach call: its outcomes of the external calls, its connection context,
its connection and its role. -/
structure AttachCall where
  env : Env
  ctx : Ctx
  conn : Connection
  isClient : Bool

/-- One Detach call: its outcomes of the external calls, its Port Info and the
topology flag. -/
structure DetachCall where
  env : Env
  portInfo : OvsPortInfo
  isL2Connect : Bool

/-- The Attach calls `cs`, run in order on the table `m`: the results in order
and the table after the last call. -/
def attachAll (bridgeName : String) : Registry → List AttachCall → List SetupOut × Registry
  | m, [] => ([], m)
  | m, c :: cs =>
    let o := setupVF c.env c.ctx c.conn bridgeName m c.isClient
    let rest := attachAll bridgeName o.parentIfRefCount cs
    (o :: rest.1, rest.2)

/-- The Detach calls `ds`, run in order on the table `m`: the results in order
and the table after the last call. -/
def detachAll (bridgeName : String) : Registry → List DetachCall → List ResetOut × Registry
  | m, [] => ([], m)
  | m, d :: ds =>
    let o := resetVF d.env d.portInfo m bridgeName d.isL2Connect
    let rest := detachAll bridgeName o.parentIfRefCountMap ds
    (o :: rest.1, rest.2)

/-- The Attach call passes the short-circuits and resolves to the representor `r`:
a kernel mechanism, no Port Info stored for the role, a VF descriptor stored for
the role, and the resolver returns `r` for it. -/
def AttachCall.resolvesTo (c : AttachCall) (r : String) : Prop :=
  c.conn.kernelMechanism ≠ none ∧ ifnames.Load c.ctx c.isClient = none ∧
  ∃ vf, vfconfig.Load c.ctx c.isClient = some vf ∧
    c.env.GetVfRepresentor vf.PFInterfaceName vf.VFNum = .ok r

/-- The number of add-port commands among the calls. -/
def addPortCount (calls : List Call) : Nat := calls.countP Call.isAddPort

/-- The number of del-port commands among the calls. -/
def delPortCount (calls : List Call) : Nat := calls.countP Call.isDelPort

/-! ## Sample inputs -/

/-- An environment in which the VF `(pf0, 1)` has the representor `pf0vf1`, whose
port number is 7; `ovsOk` and `queryOk` say whether `ovs-vsctl` and the port-number
query succeed. -/
def sampleEnv (ovsOk queryOk : Bool) : Env where
  GetVfRepresentor := fun pf n =>
    if pf = "pf0" ∧ n = 1 then .ok "pf0vf1" else .error "representor not found"
  RunOVSVsctl := fun _ =>
    if ovsOk then ⟨"", "", none⟩ else ⟨"", "ovs-vsctl: failed", some "exit status 1"⟩
  GetInterfaceOfPort := fun _ =>
    if queryOk then .ok 7 else .error "no ofport"

/-- A fresh connection context holding the VF descriptor `(pf0, 1)` for both roles. -/
def sampleCtx : Ctx :=
  { portInfoClient := none, portInfoServer := none,
    vfConfigClient := some ⟨"pf0", 1⟩, vfConfigServer := some ⟨"pf0", 1⟩ }

/-- A connection with a kernel mechanism carrying VLAN 100. -/
def sampleConn : Connection := ⟨some ⟨100⟩⟩

/-- The Port Info a successful Attach publishes for the sample inputs. -/
def samplePortInfo : OvsPortInfo := ⟨"pf0vf1", 7, 100, true⟩

/-- An Attach call of a fresh connection, all commands succeeding. -/
def sampleAttach : AttachCall := ⟨sampleEnv true true, sampleCtx, sampleConn, true⟩

/-- A Detach call for `pf0vf1`, not L2 connect, all commands succeeding. -/
def sampleDetach : DetachCall := ⟨sampleEnv true true, samplePortInfo, false⟩

/-- The table with the single entry `pf0vf1 ↦ 1`. -/
def sampleRegistry1 : Registry := Registry.store Registry.empty "pf0vf1" 1

/-- An Attach call of a second fresh connection (server role), all commands
succeeding. -/
def sampleAttachB : AttachCall := ⟨sampleEnv true true, sampleCtx, sampleConn, false⟩

/-- The scenario of two connections A and B on `pf0vf1`: Attach(A) on the empty table. -/
def scenarioAttachA : SetupOut :=
  setupVF sampleAttach.env sampleAttach.ctx sampleAttach.conn "br0" Registry.empty
    sampleAttach.isClient

/-- The scenario, second step: Attach(B). -/
def scenarioAttachB : SetupOut :=
  setupVF sampleAttachB.env sampleAttachB.ctx sampleAttachB.conn "br0"
    scenarioAttachA.parentIfRefCount sampleAttachB.isClient

/-- The scenario, third step: Detach(A). -/
def scenarioDetachA : ResetOut :=
  resetVF sampleDetach.env sampleDetach.portInfo scenarioAttachB.parentIfRefCount "br0"
    sampleDetach.isL2Connect

/-- The scenario, last step: Detach(B). -/
def scenarioDetachB : ResetOut :=
  resetVF sampleDetach.env sampleDetach.portInfo scenarioDetachA.parentIfRefCountMap "br0"
    sampleDetach.isL2Connect

/-- A connection context with nothing stored: no Port Info, no VF descriptor. -/
def sampleCtxEmpty : Ctx :=
  { portInfoClient := none, portInfoServer := none, vfConfigClient := none,
    vfConfigServer := none }

/-- A connection whose mechanism is not a kernel mechanism. -/
def sampleConnOther : Connection := ⟨none⟩

/-- A fresh connection context holding the VF descriptor `(pf9, 0)`, which has no
representor in `sampleEnv`. -/
def sampleCtxUnknownVF : Ctx :=
  { portInfoClient := none, portInfoServer := none,
    vfConfigClient := some ⟨"pf9", 0⟩, vfConfigServer := some ⟨"pf9", 0⟩ }

/-- As many further Attach calls as the largest Go `int`: 9223372036854775807
fresh connections, all commands succeeding. -/
def manyAttach : List AttachCall := List.replicate 9223372036854775807 sampleAttach

/-- As many further Detach calls for `pf0vf1`: 9223372036854775807 of them, not
L2 connect, all commands succeeding. -/
def manyDetach : List DetachCall := List.replicate 9223372036854775807 sampleDetach

/-- The table with the single entry `pf0vf1 ↦ 9223372036854775807`, the largest
Go `int`. -/
def sampleRegistryMax : Registry := Registry.store Registry.empty "pf0vf1" maxInt

/-- The table with the single entry `pf0vf1 ↦ 2`. -/
def sampleRegistry2 : Registry := Registry.store Registry.empty "pf0vf1" 2

/-! ## The bridge and runs of calls -/

/-- Lines 49-60 of `setupVF`: the representor name the call resolves, `none` when
no VF descriptor is stored or the resolver fails. -/
def setupVF.resolved (env : Env) (ctx : Ctx) (isClient : Bool) : Option String :=
  match vfconfig.Load ctx isClient with
  | none => none
  | some vfConfig =>
    match env.GetVfRepresentor vfConfig.PFInterfaceName vfConfig.VFNum with
    | .error _ => none
    | .ok vfRepresentor => some vfRepresentor

/-- Every count in the table is at least `n`. -/
def Registry.countsAtLeast (m : Registry) (n : Int) : Prop :=
  ∀ k c, m k = some c → n ≤ c

/-- The bridge, a system outside the code, as the set of the names of the ports
attached to it. -/
abbrev Bridge := String → Bool

/-- The bridge with no port. -/
def Bridge.empty : Bridge := fun _ => false

/-- The bridge after a successful add-port of `port`. -/
def Bridge.addPort (b : Bridge) (port : String) : Bridge :=
  fun x => if x = port then true else b x

/-- The bridge after a successful del-port of `port`. -/
def Bridge.delPort (b : Bridge) (port : String) : Bridge :=
  fun x => if x = port then false else b x

/-- The effect of one external call on the bridge: a successful add-port inserts
its port (the fifth argument), a successful del-port removes its port (the third
argument), a failed command and every other call change nothing. -/
def Bridge.command (env : Env) (b : Bridge) (c : Call) : Bridge :=
  match c with
  | .RunOVSVsctl args =>
    match (env.RunOVSVsctl args).err with
    | some _ => b
    | none =>
      if c.isAddPort then
        match args[4]? with
        | some port => Bridge.addPort b port
        | none => b
      else if c.isDelPort then
        match args[2]? with
        | some port => Bridge.delPort b port
        | none => b
      else b
  | _ => b

/-- The bridge after the external calls `calls`, issued in order. -/
def Bridge.after (env : Env) (b : Bridge) (calls : List Call) : Bridge :=
  calls.foldl (Bridge.command env) b

/-- The shared state: the refcount table and the bridge. -/
structure State where
  parentIfRefCount : Registry
  bridge : Bridge

/-- The empty table and the empty bridge. -/
def State.start : State := ⟨Registry.empty, Bridge.empty⟩

/-- One completed call on the shared state. -/
inductive Op where
  | attach (bridgeName : String) (c : AttachCall)
  | detach (bridgeName : String) (d : DetachCall)

/-- The call is a Detach with `isL2Connect = true`. -/
def Op.isL2Detach : Op → Bool
  | .attach _ _ => false
  | .detach _ d => d.isL2Connect

/-- The error the call returns on the table `m` (`none` is nil). -/
def Op.err (m : Registry) : Op → Option Error
  | .attach bridgeName c => (setupVF c.env c.ctx c.conn bridgeName m c.isClient).err
  | .detach bridgeName d => (resetVF d.env d.portInfo m bridgeName d.isL2Connect).err

/-- The state after one completed call. -/
def State.step (s : State) : Op → State
  | .attach bridgeName c =>
    let o := setupVF c.env c.ctx c.conn bridgeName s.parentIfRefCount c.isClient
    ⟨o.parentIfRefCount, Bridge.after c.env s.bridge o.calls⟩
  | .detach bridgeName d =>
    let o := resetVF d.env d.portInfo s.parentIfRefCount bridgeName d.isL2Connect
    ⟨o.parentIfRefCountMap, Bridge.after d.env s.bridge o.calls⟩

/-- The state after the calls `ops`, completed in order. -/
def State.run (s : State) (ops : List Op) : State :=
  ops.foldl State.step s

/-- A Detach call for `pf0vf1` with L2 connect, all commands succeeding. -/
def sampleDetachL2 : DetachCall := ⟨sampleEnv true true, samplePortInfo, true⟩

/-- A Detach call for `pf0vf1`, not L2 connect, the del-port command failing. -/
def sampleDetachFailing : DetachCall := ⟨sampleEnv false true, samplePortInfo, false⟩

/-! ## The refcount table: lookup after a write -/

/-- In the range of a Go `int` nothing wraps. -/
theorem wrapInt_of_range (x : Int) (hlo : minInt ≤ x) (hhi : x ≤ maxInt) : wrapInt x = x := by
  unfold wrapInt
  unfold minInt at hlo
  unfold maxInt at hhi
  omega

/-- Incrementing a wrapped value is wrapping the incremented value. -/
theorem wrapInt_succ (a : Int) : wrapInt (wrapInt a + 1) = wrapInt (a + 1) := by
  unfold wrapInt
  omega

/-- A wrapped value is a Go `int`. -/
theorem wrapInt_range (x : Int) : minInt ≤ wrapInt x ∧ wrapInt x ≤ maxInt := by
  unfold wrapInt minInt maxInt
  omega

theorem wrapInt_one : wrapInt 1 = 1 := by
  unfold wrapInt
  omega

/-- The increment of the largest Go `int` is the smallest. -/
theorem wrapInt_maxInt_succ : wrapInt (maxInt + 1) = minInt := by
  unfold wrapInt minInt maxInt
  omega

theorem Registry.store_same (m : Registry) (k : String) (v : Int) :
    Registry.store m k v k = some v := by
  simp [Registry.store]

theorem Registry.store_other (m : Registry) (k x : String) (v : Int) (h : x ≠ k) :
    Registry.store m k v x = m x := by
  simp [Registry.store, h]

theorem Registry.delete_same (m : Registry) (k : String) :
    Registry.delete m k k = none := by
  simp [Registry.delete]

theorem Registry.delete_other (m : Registry) (k x : String) (h : x ≠ k) :
    Registry.delete m k x = m x := by
  simp [Registry.delete, h]

theorem Registry.delete_absent (m : Registry) (k : String) (h : m k = none) :
    Registry.delete m k = m := by
  funext x
  by_cases hx : x = k
  · subst hx; simp [Registry.delete, h]
  · simp [Registry.delete, hx]

/-! ## Recognising the commands -/

theorem Call.isAddPort_addPortArgs (bridgeName r : String) :
    Call.isAddPort (.RunOVSVsctl (addPortArgs bridgeName r)) = true := by
  simp [Call.isAddPort, addPortArgs]

theorem Call.isDelPort_addPortArgs (bridgeName r : String) :
    Call.isDelPort (.RunOVSVsctl (addPortArgs bridgeName r)) = false := by
  simp [Call.isDelPort, addPortArgs]

theorem Call.isDelPort_delPortArgs (bridgeName r : String) :
    Call.isDelPort (.RunOVSVsctl (delPortArgs bridgeName r)) = true := by
  simp [Call.isDelPort, delPortArgs]

theorem Call.isAddPort_delPortArgs (bridgeName r : String) :
    Call.isAddPort (.RunOVSVsctl (delPortArgs bridgeName r)) = false := by
  simp [Call.isAddPort, delPortArgs]

/-! ## One call of `setupVF` that resolves to a representor -/

/-- A call that passes the short-circuits and resolves to `r` runs lines 61-80. -/
theorem setupVF_of_resolvesTo (c : AttachCall) (r bridgeName : String) (m : Registry)
    (h : c.resolvesTo r) :
    ∃ (mech : Mechanism) (vf : VFConfig), c.conn.kernelMechanism = some mech ∧
      setupVF c.env c.ctx c.conn bridgeName m c.isClient =
        setupVF.attach c.env c.ctx mech bridgeName m c.isClient r
          [.GetVfRepresentor vf.PFInterfaceName vf.VFNum] := by
  obtain ⟨hmech, hload, vf, hvf, hres⟩ := h
  obtain ⟨mech, hmech⟩ := Option.ne_none_iff_exists'.mp hmech
  exact ⟨mech, vf, hmech, by simp [setupVF, hmech, hload, hvf, hres]⟩

/-- The table after lines 70-80, whatever the port-number query returns. -/
theorem setupVF.publish_registry (env : Env) (ctx : Ctx) (mech : Mechanism) (m : Registry)
    (isClient : Bool) (r : String) (pre : List Call) :
    (setupVF.publish env ctx mech m isClient r pre).parentIfRefCount =
      Registry.store m r (wrapInt (Registry.get m r + 1)) := by
  unfold setupVF.publish
  cases env.GetInterfaceOfPort r <;> rfl

/-- The calls issued by lines 70-80, whatever the port-number query returns. -/
theorem setupVF.publish_calls (env : Env) (ctx : Ctx) (mech : Mechanism) (m : Registry)
    (isClient : Bool) (r : String) (pre : List Call) :
    (setupVF.publish env ctx mech m isClient r pre).calls = pre ++ [.GetInterfaceOfPort r] := by
  unfold setupVF.publish
  cases env.GetInterfaceOfPort r <;> rfl

/-- Attach on a representor that has an entry: no add-port, the count goes up by
one, wrapping around at the largest Go `int`. -/
theorem setupVF_present (c : AttachCall) (r bridgeName : String) (m : Registry) (k : Int)
    (h : c.resolvesTo r) (hm : m r = some k) :
    addPortCount (setupVF c.env c.ctx c.conn bridgeName m c.isClient).calls = 0 ∧
    delPortCount (setupVF c.env c.ctx c.conn bridgeName m c.isClient).calls = 0 ∧
    (setupVF c.env c.ctx c.conn bridgeName m c.isClient).parentIfRefCount r =
      some (wrapInt (k + 1)) := by
  obtain ⟨mech, vf, -, heq⟩ := setupVF_of_resolvesTo c r bridgeName m h
  rw [heq]
  simp [setupVF.attach, hm, setupVF.publish_registry, setupVF.publish_calls, addPortCount,
    delPortCount, Call.isAddPort, Call.isDelPort, Registry.store, Registry.get]

/-- Attach on a representor that has no entry, the add-port command succeeding:
one add-port, the count is 1. -/
theorem setupVF_absent (c : AttachCall) (r bridgeName : String) (m : Registry)
    (h : c.resolvesTo r) (hm : m r = none)
    (hadd : (c.env.RunOVSVsctl (addPortArgs bridgeName r)).err = none) :
    addPortCount (setupVF c.env c.ctx c.conn bridgeName m c.isClient).calls = 1 ∧
    delPortCount (setupVF c.env c.ctx c.conn bridgeName m c.isClient).calls = 0 ∧
    (setupVF c.env c.ctx c.conn bridgeName m c.isClient).parentIfRefCount r = some 1 := by
  obtain ⟨mech, vf, -, heq⟩ := setupVF_of_resolvesTo c r bridgeName m h
  rw [heq]
  simp [setupVF.attach, hm, hadd, setupVF.publish_registry, setupVF.publish_calls, addPortCount,
    delPortCount, List.countP_cons, Call.isAddPort, Call.isDelPort, Registry.store, Registry.get,
    wrapInt_one]
  simp [addPortArgs]

/-! ## One call of `resetVF` on a representor that has an entry -/

/-- Detach with a count of at least 2: the count is written back, one less, and
nothing else happens. -/
theorem resetVF_of_two_le (env : Env) (portInfo : OvsPortInfo) (m : Registry)
    (bridgeName : String) (isL2Connect : Bool) (c : Int)
    (hm : m portInfo.PortName = some c) (hc : 2 ≤ c) :
    resetVF env portInfo m bridgeName isL2Connect =
      { err := none, parentIfRefCountMap := Registry.store m portInfo.PortName (c - 1),
        calls := [], logs := [] } := by
  have h1 : c > 0 := by omega
  have h2 : c - 1 ≠ 0 := by omega
  simp [resetVF, resetVF.decrement, hm, h1, h2]

/-- Detach with a count of 1, not L2 connect, the del-port command succeeding:
del-port is issued and the entry is deleted. -/
theorem resetVF_of_one (env : Env) (portInfo : OvsPortInfo) (m : Registry)
    (bridgeName : String) (hm : m portInfo.PortName = some 1)
    (hdel : (env.RunOVSVsctl (delPortArgs bridgeName portInfo.PortName)).err = none) :
    resetVF env portInfo m bridgeName false =
      { err := none,
        parentIfRefCountMap :=
          Registry.delete (Registry.store m portInfo.PortName 0) portInfo.PortName,
        calls := [.RunOVSVsctl (delPortArgs bridgeName portInfo.PortName)], logs := [] } := by
  simp [resetVF, resetVF.decrement, hm, hdel]

/-- Detach with a count that is not positive, not L2 connect, the del-port command
succeeding: the count is left alone, del-port is issued and the entry is deleted. -/
theorem resetVF_of_nonpos (env : Env) (portInfo : OvsPortInfo) (m : Registry)
    (bridgeName : String) (c : Int) (hm : m portInfo.PortName = some c) (hc : c ≤ 0)
    (hdel : (env.RunOVSVsctl (delPortArgs bridgeName portInfo.PortName)).err = none) :
    resetVF env portInfo m bridgeName false =
      { err := none, parentIfRefCountMap := Registry.delete m portInfo.PortName,
        calls := [.RunOVSVsctl (delPortArgs bridgeName portInfo.PortName)], logs := [] } := by
  have h1 : ¬ c > 0 := by omega
  simp [resetVF, resetVF.decrement, hm, h1, hdel]

/-! ## Sequences -/

theorem attachAll_length (bridgeName : String) :
    ∀ (cs : List AttachCall) (m : Registry), (attachAll bridgeName m cs).1.length = cs.length
  | [], _ => rfl
  | c :: cs, m => by
    simp [attachAll, attachAll_length bridgeName cs]

theorem detachAll_length (bridgeName : String) :
    ∀ (ds : List DetachCall) (m : Registry), (detachAll bridgeName m ds).1.length = ds.length
  | [], _ => rfl
  | d :: ds, m => by
    simp [detachAll, detachAll_length bridgeName ds]

/-- The first result of a sequence of Detach calls is the result of the first
call on the starting table. -/
theorem detachAll_head (bridgeName : String) (m : Registry) (d : DetachCall)
    (ds : List DetachCall) :
    (detachAll bridgeName m (d :: ds)).1[0]? =
      some (resetVF d.env d.portInfo m bridgeName d.isL2Connect) := by
  simp [detachAll]

/-- Attach calls on a representor that has an entry with count `wrapInt a`: none
of them issues add-port or del-port, and the count ends at `a` plus the number
of calls, wrapped. -/
theorem attachAll_present (bridgeName r : String) :
    ∀ (cs : List AttachCall) (m : Registry) (a : Int), m r = some (wrapInt a) →
      (∀ c ∈ cs, c.resolvesTo r) →
      (∀ o ∈ (attachAll bridgeName m cs).1,
        addPortCount o.calls = 0 ∧ delPortCount o.calls = 0) ∧
      (attachAll bridgeName m cs).2 r = some (wrapInt (a + cs.length))
  | [], m, a, hm, _ => by simp [attachAll, hm]
  | c :: cs, m, a, hm, hcs => by
    obtain ⟨h1, h2, h3⟩ := setupVF_present c r bridgeName m (wrapInt a) (hcs c (by simp)) hm
    rw [wrapInt_succ] at h3
    obtain ⟨ih1, ih2⟩ := attachAll_present bridgeName r cs _ (a + 1) h3
      (fun c' hc' => hcs c' (by simp [hc']))
    refine ⟨?_, ?_⟩
    · intro o ho
      simp only [attachAll, List.mem_cons] at ho
      rcases ho with rfl | ho
      · exact ⟨h1, h2⟩
      · exact ih1 o ho
    · simp only [attachAll, ih2, List.length_cons]
      congr 2
      push_cast
      ring

/-- Attach calls on a representor that has no entry, the add-port command
succeeding: the first call issues add-port once, the others never, none issues
del-port, and the count ends at the number of calls, wrapped. -/
theorem attachAll_absent (bridgeName r : String) (m : Registry) (c : AttachCall)
    (cs : List AttachCall) (hm : m r = none)
    (hcs : ∀ c' ∈ c :: cs,
      c'.resolvesTo r ∧ (c'.env.RunOVSVsctl (addPortArgs bridgeName r)).err = none) :
    (∀ i o, (attachAll bridgeName m (c :: cs)).1[i]? = some o →
      addPortCount o.calls = (if i = 0 then 1 else 0) ∧ delPortCount o.calls = 0) ∧
    ((attachAll bridgeName m (c :: cs)).1.map (fun o => addPortCount o.calls)).sum = 1 ∧
    (attachAll bridgeName m (c :: cs)).2 r = some (wrapInt ((cs.length : Int) + 1)) := by
  obtain ⟨hc, hadd⟩ := hcs c (by simp)
  obtain ⟨h1, h2, h3⟩ := setupVF_absent c r bridgeName m hc hm hadd
  rw [← wrapInt_one] at h3
  obtain ⟨ih1, ih2⟩ := attachAll_present bridgeName r cs _ 1 h3
    (fun c' hc' => (hcs c' (by simp [hc'])).1)
  refine ⟨?_, ?_, ?_⟩
  · intro i o hget
    cases i with
    | zero =>
      simp only [attachAll, List.getElem?_cons_zero, Option.some.injEq] at hget
      subst hget
      exact ⟨by simpa using h1, h2⟩
    | succ i =>
      simp only [attachAll, List.getElem?_cons_succ] at hget
      have := ih1 o (List.getElem?_mem hget)
      simpa using this
  · simp only [attachAll, List.map_cons, List.sum_cons, h1]
    have : ((attachAll bridgeName
        (setupVF c.env c.ctx c.conn bridgeName m c.isClient).parentIfRefCount cs).1.map
          (fun o => addPortCount o.calls)).sum = 0 := by
      apply List.sum_eq_zero
      intro x hx
      obtain ⟨o, ho, rfl⟩ := List.mem_map.mp hx
      exact (ih1 o ho).1
    omega
  · simp only [attachAll, ih2]
    rw [add_comm]

/-- Detach calls, not L2 connect and with succeeding del-port, on a representor
whose count equals the number of calls: only the last call issues del-port, no
call fails, and the entry is gone at the end. -/
theorem detachAll_countdown (bridgeName r : String) :
    ∀ (ds : List DetachCall) (m : Registry), ds ≠ [] → m r = some (ds.length : Int) →
      (∀ d ∈ ds, d.portInfo.PortName = r ∧ d.isL2Connect = false ∧
        (d.env.RunOVSVsctl (delPortArgs bridgeName r)).err = none) →
      (∀ i o, (detachAll bridgeName m ds).1[i]? = some o →
        o.err = none ∧ addPortCount o.calls = 0 ∧
        delPortCount o.calls = (if i + 1 = ds.length then 1 else 0)) ∧
      ((detachAll bridgeName m ds).1.map (fun o => delPortCount o.calls)).sum = 1 ∧
      (detachAll bridgeName m ds).2 r = none
  | [], _, hne, _, _ => absurd rfl hne
  | [d], m, _, hm, hds => by
    obtain ⟨hname, hl2, hdel⟩ := hds d (by simp)
    subst hname
    have hm1 : m d.portInfo.PortName = some 1 := by simpa using hm
    have ho := resetVF_of_one d.env d.portInfo m bridgeName hm1 hdel
    refine ⟨?_, ?_, ?_⟩
    · intro i o hget
      cases i with
      | zero =>
        simp only [detachAll, hl2, ho, List.getElem?_cons_zero, Option.some.injEq] at hget
        subst hget
        simp [addPortCount, delPortCount, Call.isDelPort_delPortArgs,
          Call.isAddPort_delPortArgs]
      | succ i => simp [detachAll] at hget
    · simp [detachAll, hl2, ho, delPortCount, Call.isDelPort_delPortArgs]
    · simp [detachAll, hl2, ho, Registry.delete]
  | d :: d' :: ds, m, _, hm, hds => by
    obtain ⟨hname, -, -⟩ := hds d (by simp)
    subst hname
    have hm2 : m d.portInfo.PortName = some (((d' :: ds).length : Int) + 1) := by
      simpa using hm
    have hge : (2 : Int) ≤ ((d' :: ds).length : Int) + 1 := by
      simp only [List.length_cons]
      push_cast
      omega
    have ho := resetVF_of_two_le d.env d.portInfo m bridgeName d.isL2Connect _ hm2 hge
    obtain ⟨ih1, ih2, ih3⟩ := detachAll_countdown bridgeName d.portInfo.PortName (d' :: ds)
      (Registry.store m d.portInfo.PortName (((d' :: ds).length : Int) + 1 - 1))
      (by simp) (by simp [Registry.store]) (fun x hx => hds x (by simp [hx]))
    refine ⟨?_, ?_, ?_⟩
    · intro i o hget
      cases i with
      | zero =>
        rw [detachAll] at hget
        simp only [ho, List.getElem?_cons_zero, Option.some.injEq] at hget
        subst hget
        simp [addPortCount, delPortCount]
      | succ i =>
        rw [detachAll] at hget
        simp only [ho, List.getElem?_cons_succ] at hget
        have := ih1 i o hget
        simpa using this
    · rw [detachAll]
      simp only [ho, List.map_cons, List.sum_cons, ih2]
      simp [delPortCount]
    · rw [detachAll]
      simp only [ho]
      exact ih3

/-- Attach calls that resolve to `r`, with succeeding add-port command and
port-number query, all return success, whatever the table holds. -/
theorem attachAll_err (bridgeName r : String) :
    ∀ (cs : List AttachCall) (m : Registry),
      (∀ c ∈ cs, c.resolvesTo r ∧ (c.env.RunOVSVsctl (addPortArgs bridgeName r)).err = none ∧
        ∃ portNo, c.env.GetInterfaceOfPort r = .ok portNo) →
      ∀ o ∈ (attachAll bridgeName m cs).1, o.err = none
  | [], _, _ => by simp [attachAll]
  | c :: cs, m, hcs => by
    intro o ho
    simp only [attachAll, List.mem_cons] at ho
    rcases ho with rfl | ho
    · obtain ⟨hres, hadd, portNo, hq⟩ := hcs c (by simp)
      obtain ⟨mech, vf, -, heq⟩ := setupVF_of_resolvesTo c r bridgeName m hres
      rw [heq]
      cases hm : m r with
      | some k => simp [setupVF.attach, hm, setupVF.publish, hq]
      | none => simp [setupVF.attach, hm, hadd, setupVF.publish, hq]
    · exact attachAll_err bridgeName r cs _ (fun c' hc' => hcs c' (by simp [hc'])) o ho

/-! ## Runs that reach the largest count -/

/-- The sample run of 9223372036854775808 Attach calls on `pf0vf1`: every call
passes the short-circuits, resolves to `pf0vf1` and has succeeding commands. -/
theorem manyAttach_resolves :
    ∀ c ∈ sampleAttach :: manyAttach,
      c.resolvesTo "pf0vf1" ∧ (c.env.RunOVSVsctl (addPortArgs "br0" "pf0vf1")).err = none ∧
        ∃ portNo, c.env.GetInterfaceOfPort "pf0vf1" = .ok portNo := by
  have hsample : sampleAttach.resolvesTo "pf0vf1" ∧
      (sampleAttach.env.RunOVSVsctl (addPortArgs "br0" "pf0vf1")).err = none ∧
        ∃ portNo, sampleAttach.env.GetInterfaceOfPort "pf0vf1" = .ok portNo :=
    ⟨⟨by decide, by decide, ⟨"pf0", 1⟩, rfl, rfl⟩, by decide, 7, rfl⟩
  intro c hc
  rcases List.mem_cons.mp hc with rfl | hc
  · exact hsample
  · rw [List.eq_of_mem_replicate hc]
    exact hsample

/-- The count after the sample run of 9223372036854775808 Attach calls: the
smallest Go `int`. -/
theorem manyAttach_count :
    (attachAll "br0" Registry.empty (sampleAttach :: manyAttach)).2 "pf0vf1" =
      some (-9223372036854775808) := by
  have h := (attachAll_absent "br0" "pf0vf1" Registry.empty sampleAttach manyAttach rfl
    (fun c hc => ⟨(manyAttach_resolves c hc).1, (manyAttach_resolves c hc).2.1⟩)).2.2
  have hl : manyAttach.length = 9223372036854775807 := List.length_replicate _ _
  rw [hl] at h
  rw [h]
  congr 1

/-! ## Claims -/

/-- C1 (counterexample): 9223372036854775808 Attach calls of fresh connections on
`pf0vf1`, starting from the empty table, all commands succeeding: the count of
`pf0vf1` after the sequence is -9223372036854775808, not the number of calls. -/
theorem attach_sequence_count_wraps :
    (1 ≤ 9223372036854775808 ∧
      (sampleAttach :: manyAttach).length = 9223372036854775808 ∧
      Registry.empty "pf0vf1" = none ∧
      ∀ c ∈ sampleAttach :: manyAttach,
        c.resolvesTo "pf0vf1" ∧
          (c.env.RunOVSVsctl (addPortArgs "br0" "pf0vf1")).err = none) ∧
    (attachAll "br0" Registry.empty (sampleAttach :: manyAttach)).2 "pf0vf1" =
      some (-9223372036854775808) ∧
    (attachAll "br0" Registry.empty (sampleAttach :: manyAttach)).2 "pf0vf1" ≠
      some ((9223372036854775808 : Nat) : Int) := by
  have hl : manyAttach.length = 9223372036854775807 := List.length_replicate _ _
  refine ⟨⟨by decide, by rw [List.length_cons, hl], rfl,
    fun c hc => ⟨(manyAttach_resolves c hc).1, (manyAttach_resolves c hc).2.1⟩⟩,
    manyAttach_count, ?_⟩
  rw [manyAttach_count]
  intro h
  have h' := Option.some.inj h
  omega

/-- C1 (amended): starting from a table with no entry for the representor `r`,
for every `N ≥ 1` and every sequence of `N` Attach calls that pass the
short-circuits and resolve to `r`, the add-port command succeeding, the add-port
command is issued at most once over the whole sequence, by the first call only;
the count of `r` after the sequence is `N` wrapped to 64 bits, which is `N` when
`N` is at most the largest Go `int`, 9223372036854775807. -/
theorem attach_sequence_adds_port_once (bridgeName r : String) (m : Registry)
    (cs : List AttachCall) (N : Nat) (hN : 1 ≤ N) (hlen : cs.length = N) (hm : m r = none)
    (hcs : ∀ c ∈ cs,
      c.resolvesTo r ∧ (c.env.RunOVSVsctl (addPortArgs bridgeName r)).err = none) :
    (attachAll bridgeName m cs).1.length = N ∧
    ((attachAll bridgeName m cs).1.map (fun o => addPortCount o.calls)).sum ≤ 1 ∧
    (∀ i o, (attachAll bridgeName m cs).1[i]? = some o →
      addPortCount o.calls = (if i = 0 then 1 else 0)) ∧
    (attachAll bridgeName m cs).2 r = some (wrapInt (N : Int)) ∧
    ((N : Int) ≤ maxInt → (attachAll bridgeName m cs).2 r = some (N : Int)) := by
  cases cs with
  | nil => simp at hlen; omega
  | cons c cs =>
    obtain ⟨h1, h2, h3⟩ := attachAll_absent bridgeName r m c cs hm hcs
    have hwrap : (attachAll bridgeName m (c :: cs)).2 r = some (wrapInt (N : Int)) := by
      rw [h3, ← hlen]
      simp
    refine ⟨by rw [attachAll_length, hlen], by rw [h2], fun i o hget => (h1 i o hget).1,
      hwrap, ?_⟩
    intro hmax
    rw [hwrap, wrapInt_of_range _ (by unfold minInt; omega) hmax]

/-- Witness for C1 (amended): two fresh connections on `pf0vf1`, starting from the
empty table. -/
theorem attach_sequence_adds_port_once_witness :
    (1 ≤ 2 ∧ [sampleAttach, sampleAttachB].length = 2 ∧ Registry.empty "pf0vf1" = none ∧
      ((2 : Nat) : Int) ≤ maxInt) ∧
    (attachAll "br0" Registry.empty [sampleAttach, sampleAttachB]).2 "pf0vf1" =
      some ((2 : Nat) : Int) ∧
    (attachAll "br0" Registry.empty [sampleAttach, sampleAttachB]).1.length = 2 ∧
    ((attachAll "br0" Registry.empty [sampleAttach, sampleAttachB]).1.map
      (fun o => addPortCount o.calls)).sum ≤ 1 ∧
    (∀ i o, (attachAll "br0" Registry.empty [sampleAttach, sampleAttachB]).1[i]? = some o →
      addPortCount o.calls = (if i = 0 then 1 else 0)) ∧
    (attachAll "br0" Registry.empty [sampleAttach, sampleAttachB]).2 "pf0vf1" =
      some (wrapInt ((2 : Nat) : Int)) ∧
    (((2 : Nat) : Int) ≤ maxInt →
      (attachAll "br0" Registry.empty [sampleAttach, sampleAttachB]).2 "pf0vf1" =
        some ((2 : Nat) : Int)) :=
  have hall := attach_sequence_adds_port_once "br0" "pf0vf1" Registry.empty
    [sampleAttach, sampleAttachB] 2 (by decide) rfl rfl
    (by
      intro c hc
      simp only [List.mem_cons, List.mem_singleton, List.not_mem_nil, or_false] at hc
      rcases hc with rfl | rfl
      · exact ⟨⟨by decide, by decide, ⟨"pf0", 1⟩, rfl, rfl⟩, by decide⟩
      · exact ⟨⟨by decide, by decide, ⟨"pf0", 1⟩, rfl, rfl⟩, by decide⟩)
  ⟨⟨by decide, rfl, rfl, by decide⟩, hall.2.2.2.2 (by decide), hall⟩

/-- C2 (counterexample): 9223372036854775808 successful Attach calls on `pf0vf1`
followed by as many Detach calls for `pf0vf1`, not L2 connect, all commands
succeeding: the count after the Attach calls is -9223372036854775808, and the
first Detach already issues del-port. -/
theorem attach_detach_sequence_wraps :
    (1 ≤ 9223372036854775808 ∧
      (sampleAttach :: manyAttach).length = 9223372036854775808 ∧
      (sampleDetach :: manyDetach).length = 9223372036854775808 ∧
      Registry.empty "pf0vf1" = none ∧
      (∀ c ∈ sampleAttach :: manyAttach,
        c.resolvesTo "pf0vf1" ∧
          (c.env.RunOVSVsctl (addPortArgs "br0" "pf0vf1")).err = none ∧
          ∃ portNo, c.env.GetInterfaceOfPort "pf0vf1" = .ok portNo) ∧
      (∀ d ∈ sampleDetach :: manyDetach, d.portInfo.PortName = "pf0vf1" ∧
        d.isL2Connect = false ∧
        (d.env.RunOVSVsctl (delPortArgs "br0" "pf0vf1")).err = none)) ∧
    (attachAll "br0" Registry.empty (sampleAttach :: manyAttach)).2 "pf0vf1" =
      some (-9223372036854775808) ∧
    (detachAll "br0" (attachAll "br0" Registry.empty (sampleAttach :: manyAttach)).2
      (sampleDetach :: manyDetach)).1[0]? =
      some (resetVF sampleDetach.env sampleDetach.portInfo
        (attachAll "br0" Registry.empty (sampleAttach :: manyAttach)).2 "br0"
        sampleDetach.isL2Connect) ∧
    delPortCount (resetVF sampleDetach.env sampleDetach.portInfo
      (attachAll "br0" Registry.empty (sampleAttach :: manyAttach)).2 "br0"
      sampleDetach.isL2Connect).calls = 1 ∧
    ¬ (0 + 1 = 9223372036854775808) := by
  have hla : manyAttach.length = 9223372036854775807 := List.length_replicate _ _
  have hld : manyDetach.length = 9223372036854775807 := List.length_replicate _ _
  have hsample : sampleDetach.portInfo.PortName = "pf0vf1" ∧
      sampleDetach.isL2Connect = false ∧
      (sampleDetach.env.RunOVSVsctl (delPortArgs "br0" "pf0vf1")).err = none :=
    ⟨rfl, rfl, by decide⟩
  refine ⟨⟨by decide, by rw [List.length_cons, hla], by rw [List.length_cons, hld], rfl,
    manyAttach_resolves, ?_⟩, manyAttach_count, ?_, ?_, by decide⟩
  · intro d hd
    rcases List.mem_cons.mp hd with rfl | hd
    · exact hsample
    · rw [List.eq_of_mem_replicate hd]
      exact hsample
  · exact detachAll_head _ _ _ _
  · have hcount := manyAttach_count
    generalize (attachAll "br0" Registry.empty (sampleAttach :: manyAttach)).2 = m at hcount ⊢
    have hname : sampleDetach.portInfo.PortName = "pf0vf1" := rfl
    have hreset := resetVF_of_nonpos sampleDetach.env sampleDetach.portInfo m "br0"
      (-9223372036854775808) (by rw [hname]; exact hcount) (by omega)
      (by rw [hname]; exact hsample.2.2)
    have hl2 : sampleDetach.isL2Connect = false := rfl
    rw [hl2, hreset]
    simp only [delPortCount, List.countP_cons, Call.isDelPort_delPortArgs, List.countP_nil]
    rfl

/-- C2 (amended): for every `N ≥ 1` that is at most the largest Go `int`,
9223372036854775807, starting from a table with no entry for the representor
`r`: after `N` successful Attach calls on `r` followed by `N` Detach calls with
Port Info naming `r`, not L2 connect, the commands succeeding, the del-port
command is issued exactly once, by the `N`th Detach and by none of the first
`N - 1` (nor by an Attach), no call returns an error, and the table has no entry
for `r` afterward. For every `N ≥ 1` the Attach calls return no error and issue
no del-port. -/
theorem attach_detach_sequence_deletes_port_once (bridgeName r : String) (m : Registry)
    (cs : List AttachCall) (ds : List DetachCall) (N : Nat) (hN : 1 ≤ N)
    (hcs : cs.length = N) (hds : ds.length = N) (hm : m r = none)
    (hattach : ∀ c ∈ cs,
      c.resolvesTo r ∧ (c.env.RunOVSVsctl (addPortArgs bridgeName r)).err = none ∧
        ∃ portNo, c.env.GetInterfaceOfPort r = .ok portNo)
    (hdetach : ∀ d ∈ ds, d.portInfo.PortName = r ∧ d.isL2Connect = false ∧
      (d.env.RunOVSVsctl (delPortArgs bridgeName r)).err = none) :
    (∀ o ∈ (attachAll bridgeName m cs).1, o.err = none ∧ delPortCount o.calls = 0) ∧
    ((N : Int) ≤ maxInt →
      (attachAll bridgeName m cs).2 r = some (N : Int) ∧
      ((detachAll bridgeName (attachAll bridgeName m cs).2 ds).1.map
        (fun o => delPortCount o.calls)).sum = 1 ∧
      (∀ i o, (detachAll bridgeName (attachAll bridgeName m cs).2 ds).1[i]? = some o →
        o.err = none ∧ delPortCount o.calls = (if i + 1 = N then 1 else 0)) ∧
      (detachAll bridgeName (attachAll bridgeName m cs).2 ds).1.length = N ∧
      (detachAll bridgeName (attachAll bridgeName m cs).2 ds).2 r = none) := by
  cases cs with
  | nil => simp at hcs; omega
  | cons c cs =>
    obtain ⟨h1, -, h3⟩ := attachAll_absent bridgeName r m c cs hm
      (fun c' hc' => ⟨(hattach c' hc').1, (hattach c' hc').2.1⟩)
    refine ⟨?_, ?_⟩
    · intro o ho
      obtain ⟨i, hi⟩ := List.getElem?_of_mem ho
      exact ⟨attachAll_err bridgeName r (c :: cs) m hattach o ho, (h1 i o hi).2⟩
    · intro hmax
      have hcount : (attachAll bridgeName m (c :: cs)).2 r = some (ds.length : Int) := by
        rw [h3, hds, ← hcs]
        have hcast : ((cs.length : Int) + 1) = (((c :: cs).length : Nat) : Int) := by simp
        rw [hcast, wrapInt_of_range _ (by unfold minInt; omega) (by rw [hcs]; exact hmax)]
      have hne : ds ≠ [] := by
        intro h
        subst h
        simp at hds
        omega
      obtain ⟨d1, d2, d3⟩ := detachAll_countdown bridgeName r ds _ hne hcount hdetach
      refine ⟨by rw [hcount, hds], d2, ?_, by rw [detachAll_length, hds], d3⟩
      intro i o hget
      have := d1 i o hget
      rw [hds] at this
      exact ⟨this.1, this.2.2⟩

/-- Witness for C2 (amended): connections A and B on `pf0vf1`; the counts go 1, 2,
1, then the entry is deleted, with add-port only in Attach(A) and del-port only
in Detach(B). -/
theorem attach_detach_sequence_deletes_port_once_witness :
    (scenarioAttachA.parentIfRefCount "pf0vf1" = some 1 ∧
      scenarioAttachB.parentIfRefCount "pf0vf1" = some 2 ∧
      scenarioDetachA.parentIfRefCountMap "pf0vf1" = some 1 ∧
      scenarioDetachB.parentIfRefCountMap "pf0vf1" = none) ∧
    (addPortCount scenarioAttachA.calls = 1 ∧ addPortCount scenarioAttachB.calls = 0 ∧
      scenarioDetachA.calls = [] ∧
      scenarioDetachB.calls = [.RunOVSVsctl ["del-port", "br0", "pf0vf1"]]) ∧
    ((2 : Nat) : Int) ≤ maxInt ∧
    (∀ o ∈ (attachAll "br0" Registry.empty [sampleAttach, sampleAttachB]).1,
      o.err = none ∧ delPortCount o.calls = 0) ∧
    (attachAll "br0" Registry.empty [sampleAttach, sampleAttachB]).2 "pf0vf1" =
      some ((2 : Nat) : Int) ∧
    ((detachAll "br0" (attachAll "br0" Registry.empty [sampleAttach, sampleAttachB]).2
      [sampleDetach, sampleDetach]).1.map (fun o => delPortCount o.calls)).sum = 1 ∧
    (∀ i o, (detachAll "br0" (attachAll "br0" Registry.empty [sampleAttach, sampleAttachB]).2
      [sampleDetach, sampleDetach]).1[i]? = some o →
      o.err = none ∧ delPortCount o.calls = (if i + 1 = 2 then 1 else 0)) ∧
    (detachAll "br0" (attachAll "br0" Registry.empty [sampleAttach, sampleAttachB]).2
      [sampleDetach, sampleDetach]).1.length = 2 ∧
    (detachAll "br0" (attachAll "br0" Registry.empty [sampleAttach, sampleAttachB]).2
      [sampleDetach, sampleDetach]).2 "pf0vf1" = none :=
  have hall := attach_detach_sequence_deletes_port_once "br0" "pf0vf1" Registry.empty
    [sampleAttach, sampleAttachB] [sampleDetach, sampleDetach] 2 (by decide) rfl rfl rfl
    (by
      intro c hc
      simp only [List.mem_cons, List.mem_singleton, List.not_mem_nil, or_false] at hc
      rcases hc with rfl | rfl
      · exact ⟨⟨by decide, by decide, ⟨"pf0", 1⟩, rfl, rfl⟩, by decide, 7, rfl⟩
      · exact ⟨⟨by decide, by decide, ⟨"pf0", 1⟩, rfl, rfl⟩, by decide, 7, rfl⟩)
    (by
      intro d hd
      simp only [List.mem_cons, List.mem_singleton, List.not_mem_nil, or_false] at hd
      rcases hd with rfl | rfl
      · exact ⟨rfl, rfl, by decide⟩
      · exact ⟨rfl, rfl, by decide⟩)
  ⟨⟨by decide, by decide, by decide, by decide⟩,
    ⟨by decide, by decide, by decide, by decide⟩,
    by decide, hall.1, hall.2 (by decide)⟩

/-- C3 (counterexample): on the empty table, not L2 connect, Detach for `pf0vf1`
issues the del-port command, and returns an error when that command fails: it
is not a no-op. -/
theorem resetVF_absent_issues_delPort :
    Registry.empty samplePortInfo.PortName = none ∧
    (resetVF (sampleEnv false true) samplePortInfo Registry.empty "br0" false).err =
      some (.delPortFailed "pf0vf1" "br0" "" "ovs-vsctl: failed" "exit status 1") ∧
    (resetVF (sampleEnv false true) samplePortInfo Registry.empty "br0" false).calls =
      [.RunOVSVsctl ["del-port", "br0", "pf0vf1"]] ∧
    (resetVF (sampleEnv true true) samplePortInfo Registry.empty "br0" false).calls =
      [.RunOVSVsctl ["del-port", "br0", "pf0vf1"]] ∧
    ¬ ((resetVF (sampleEnv false true) samplePortInfo Registry.empty "br0" false).err = none ∧
      (resetVF (sampleEnv false true) samplePortInfo Registry.empty "br0" false).calls = []) := by
  decide

/-- C3 (amended): for every table that has no entry for `portInfo.PortName`,
Detach leaves the table unchanged; with L2 connect it returns no error and issues
no command; without L2 connect it issues the del-port command, and nothing else,
and returns an error exactly when that command fails. -/
theorem resetVF_absent (env : Env) (portInfo : OvsPortInfo) (m : Registry)
    (bridgeName : String) (isL2Connect : Bool) (hm : m portInfo.PortName = none) :
    (resetVF env portInfo m bridgeName isL2Connect).parentIfRefCountMap = m ∧
    (isL2Connect = true →
      (resetVF env portInfo m bridgeName isL2Connect).err = none ∧
      (resetVF env portInfo m bridgeName isL2Connect).calls = []) ∧
    (isL2Connect = false →
      (resetVF env portInfo m bridgeName isL2Connect).calls =
        [.RunOVSVsctl (delPortArgs bridgeName portInfo.PortName)] ∧
      ((resetVF env portInfo m bridgeName isL2Connect).err = none ↔
        (env.RunOVSVsctl (delPortArgs bridgeName portInfo.PortName)).err = none)) := by
  have hdel := Registry.delete_absent m portInfo.PortName hm
  cases isL2Connect with
  | true => simp [resetVF, resetVF.decrement, hm, hdel]
  | false =>
    cases herr : (env.RunOVSVsctl (delPortArgs bridgeName portInfo.PortName)).err with
    | none => simp [resetVF, resetVF.decrement, hm, hdel, herr]
    | some e => simp [resetVF, resetVF.decrement, hm, herr]

/-- Witness for C3 (amended): Detach for `pf0vf1` on the empty table, not L2 connect. -/
theorem resetVF_absent_witness :
    Registry.empty samplePortInfo.PortName = none ∧
    (resetVF (sampleEnv true true) samplePortInfo Registry.empty "br0" false).parentIfRefCountMap =
      Registry.empty ∧
    (false = true →
      (resetVF (sampleEnv true true) samplePortInfo Registry.empty "br0" false).err = none ∧
      (resetVF (sampleEnv true true) samplePortInfo Registry.empty "br0" false).calls = []) ∧
    (false = false →
      (resetVF (sampleEnv true true) samplePortInfo Registry.empty "br0" false).calls =
        [.RunOVSVsctl (delPortArgs "br0" samplePortInfo.PortName)] ∧
      ((resetVF (sampleEnv true true) samplePortInfo Registry.empty "br0" false).err = none ↔
        ((sampleEnv true true).RunOVSVsctl (delPortArgs "br0" samplePortInfo.PortName)).err =
          none)) :=
  ⟨rfl, resetVF_absent (sampleEnv true true) samplePortInfo Registry.empty "br0" false rfl⟩

/-- C4 (counterexample): with count 1 for `pf0vf1`, not L2 connect and a failing
del-port command, the resulting count is 0, Detach returns an error, and the
entry for `pf0vf1` is still in the table, with count 0. -/
theorem resetVF_delPort_failure_entry_not_deleted :
    (resetVF.decrement sampleRegistry1 samplePortInfo.PortName).1 = 0 ∧
    ((sampleEnv false true).RunOVSVsctl (delPortArgs "br0" samplePortInfo.PortName)).err ≠
      none ∧
    (resetVF (sampleEnv false true) samplePortInfo sampleRegistry1 "br0" false).err ≠ none ∧
    (resetVF (sampleEnv false true) samplePortInfo sampleRegistry1 "br0"
      false).parentIfRefCountMap samplePortInfo.PortName = some 0 ∧
    ¬ ((resetVF (sampleEnv false true) samplePortInfo sampleRegistry1 "br0"
      false).parentIfRefCountMap samplePortInfo.PortName = none) := by
  decide

/-- C4 (amended): for every Detach call in which the resulting count is 0, the
topology is not L2 connect and the del-port command fails, Detach returns an
error and does not delete the entry: the table is left as the decrement step
wrote it, so an entry for `portInfo.PortName` is there after the call exactly
when it was there before, with count 0 when the count was 1. -/
theorem resetVF_delPort_failure (env : Env) (portInfo : OvsPortInfo) (m : Registry)
    (bridgeName : String) (e : String)
    (h0 : (resetVF.decrement m portInfo.PortName).1 = 0)
    (hfail : (env.RunOVSVsctl (delPortArgs bridgeName portInfo.PortName)).err = some e) :
    (resetVF env portInfo m bridgeName false).err =
      some (.delPortFailed portInfo.PortName bridgeName
        (env.RunOVSVsctl (delPortArgs bridgeName portInfo.PortName)).stdout
        (env.RunOVSVsctl (delPortArgs bridgeName portInfo.PortName)).stderr e) ∧
    (resetVF env portInfo m bridgeName false).calls =
      [.RunOVSVsctl (delPortArgs bridgeName portInfo.PortName)] ∧
    (resetVF env portInfo m bridgeName false).parentIfRefCountMap =
      (resetVF.decrement m portInfo.PortName).2 ∧
    ((resetVF env portInfo m bridgeName false).parentIfRefCountMap portInfo.PortName = none ↔
      m portInfo.PortName = none) ∧
    (m portInfo.PortName = some 1 →
      (resetVF env portInfo m bridgeName false).parentIfRefCountMap portInfo.PortName =
        some 0) := by
  have hout : resetVF env portInfo m bridgeName false =
      { err := some (.delPortFailed portInfo.PortName bridgeName
          (env.RunOVSVsctl (delPortArgs bridgeName portInfo.PortName)).stdout
          (env.RunOVSVsctl (delPortArgs bridgeName portInfo.PortName)).stderr e),
        parentIfRefCountMap := (resetVF.decrement m portInfo.PortName).2,
        calls := [.RunOVSVsctl (delPortArgs bridgeName portInfo.PortName)],
        logs := [.delPort portInfo.PortName bridgeName
          (env.RunOVSVsctl (delPortArgs bridgeName portInfo.PortName)).stdout
          (env.RunOVSVsctl (delPortArgs bridgeName portInfo.PortName)).stderr e] } := by
    simp [resetVF, h0, hfail]
  rw [hout]
  refine ⟨rfl, rfl, rfl, ?_, ?_⟩
  · cases hm : m portInfo.PortName with
    | none => simp [resetVF.decrement, hm]
    | some c =>
      by_cases hc : c > 0
      · simp [resetVF.decrement, hm, hc, Registry.store]
      · simp [resetVF.decrement, hm, hc]
  · intro hm
    simp [resetVF.decrement, hm, Registry.store]

/-- Witness for C4 (amended): count 1 for `pf0vf1`, the del-port command failing. -/
theorem resetVF_delPort_failure_witness :
    ((resetVF.decrement sampleRegistry1 samplePortInfo.PortName).1 = 0 ∧
      ((sampleEnv false true).RunOVSVsctl (delPortArgs "br0" samplePortInfo.PortName)).err =
        some "exit status 1") ∧
    (resetVF (sampleEnv false true) samplePortInfo sampleRegistry1 "br0" false).err =
      some (.delPortFailed samplePortInfo.PortName "br0"
        ((sampleEnv false true).RunOVSVsctl (delPortArgs "br0" samplePortInfo.PortName)).stdout
        ((sampleEnv false true).RunOVSVsctl (delPortArgs "br0" samplePortInfo.PortName)).stderr
        "exit status 1") ∧
    (resetVF (sampleEnv false true) samplePortInfo sampleRegistry1 "br0" false).calls =
      [.RunOVSVsctl (delPortArgs "br0" samplePortInfo.PortName)] ∧
    (resetVF (sampleEnv false true) samplePortInfo sampleRegistry1 "br0"
      false).parentIfRefCountMap =
      (resetVF.decrement sampleRegistry1 samplePortInfo.PortName).2 ∧
    ((resetVF (sampleEnv false true) samplePortInfo sampleRegistry1 "br0"
      false).parentIfRefCountMap samplePortInfo.PortName = none ↔
      sampleRegistry1 samplePortInfo.PortName = none) ∧
    (sampleRegistry1 samplePortInfo.PortName = some 1 →
      (resetVF (sampleEnv false true) samplePortInfo sampleRegistry1 "br0"
        false).parentIfRefCountMap samplePortInfo.PortName = some 0) :=
  ⟨⟨by decide, by decide⟩,
    resetVF_delPort_failure (sampleEnv false true) samplePortInfo sampleRegistry1 "br0"
      "exit status 1" (by decide) (by decide)⟩

/-- C5: for every Detach call with L2 connect whose resulting count is 0 (as it
is when the entry for `portInfo.PortName` had count 1), no command is issued, so
no del-port, the entry for `portInfo.PortName` is deleted and the other entries
are as before, and no error is returned. -/
theorem resetVF_l2Connect (env : Env) (portInfo : OvsPortInfo) (m : Registry)
    (bridgeName : String)
    (h0 : m portInfo.PortName = some 1 ∨ (resetVF.decrement m portInfo.PortName).1 = 0) :
    (resetVF.decrement m portInfo.PortName).1 = 0 ∧
    (resetVF env portInfo m bridgeName true).calls = [] ∧
    (resetVF env portInfo m bridgeName true).parentIfRefCountMap portInfo.PortName = none ∧
    (resetVF env portInfo m bridgeName true).parentIfRefCountMap =
      Registry.delete m portInfo.PortName ∧
    (resetVF env portInfo m bridgeName true).err = none := by
  have h0' : (resetVF.decrement m portInfo.PortName).1 = 0 := by
    rcases h0 with h1 | h0
    · simp [resetVF.decrement, h1]
    · exact h0
  have hout : resetVF env portInfo m bridgeName true =
      { err := none,
        parentIfRefCountMap :=
          Registry.delete (resetVF.decrement m portInfo.PortName).2 portInfo.PortName,
        calls := [], logs := [] } := by
    simp [resetVF, h0']
  have hdel : Registry.delete (resetVF.decrement m portInfo.PortName).2 portInfo.PortName =
      Registry.delete m portInfo.PortName := by
    funext x
    by_cases hx : x = portInfo.PortName
    · simp [Registry.delete, hx]
    · unfold resetVF.decrement
      cases m portInfo.PortName with
      | none => rfl
      | some c =>
        by_cases hc : c > 0
        · simp [hc, Registry.delete, Registry.store, hx]
        · simp [hc]
  rw [hout]
  exact ⟨h0', rfl, Registry.delete_same _ _, hdel, rfl⟩

/-- Witness for C5: count 1 for `pf0vf1`, L2 connect. -/
theorem resetVF_l2Connect_witness :
    (sampleRegistry1 samplePortInfo.PortName = some 1 ∨
      (resetVF.decrement sampleRegistry1 samplePortInfo.PortName).1 = 0) ∧
    (resetVF.decrement sampleRegistry1 samplePortInfo.PortName).1 = 0 ∧
    (resetVF (sampleEnv false true) samplePortInfo sampleRegistry1 "br0" true).calls = [] ∧
    (resetVF (sampleEnv false true) samplePortInfo sampleRegistry1 "br0"
      true).parentIfRefCountMap samplePortInfo.PortName = none ∧
    (resetVF (sampleEnv false true) samplePortInfo sampleRegistry1 "br0"
      true).parentIfRefCountMap = Registry.delete sampleRegistry1 samplePortInfo.PortName ∧
    (resetVF (sampleEnv false true) samplePortInfo sampleRegistry1 "br0" true).err = none :=
  ⟨Or.inl (by decide),
    resetVF_l2Connect (sampleEnv false true) samplePortInfo sampleRegistry1 "br0"
      (Or.inl (by decide))⟩

/-! ## The context after `setupVF` -/

theorem ifnames.Load_Store (ctx : Ctx) (isClient : Bool) (value : OvsPortInfo) :
    ifnames.Load (ifnames.Store ctx isClient value) isClient = some value := by
  cases isClient <;> simp [ifnames.Load, ifnames.Store]

/-- A call that fails leaves the context as it was. -/
theorem setupVF_ctx_of_error (env : Env) (ctx : Ctx) (conn : Connection)
    (bridgeName : String) (m : Registry) (isClient : Bool)
    (herr : (setupVF env ctx conn bridgeName m isClient).err ≠ none) :
    (setupVF env ctx conn bridgeName m isClient).ctx = ctx := by
  cases hmech : conn.kernelMechanism with
  | none => simp [setupVF, hmech]
  | some mech =>
    cases hload : ifnames.Load ctx isClient with
    | some p => simp [setupVF, hmech, hload]
    | none =>
      cases hvf : vfconfig.Load ctx isClient with
      | none => simp [setupVF, hmech, hload, hvf]
      | some vf =>
        cases hres : env.GetVfRepresentor vf.PFInterfaceName vf.VFNum with
        | error e => simp [setupVF, hmech, hload, hvf, hres]
        | ok r =>
          cases hq : env.GetInterfaceOfPort r with
          | error e =>
            cases hm : m r with
            | some k =>
              simp [setupVF, hmech, hload, hvf, hres, setupVF.attach, hm, setupVF.publish, hq]
            | none =>
              cases hadd : (env.RunOVSVsctl (addPortArgs bridgeName r)).err with
              | some e1 =>
                simp [setupVF, hmech, hload, hvf, hres, setupVF.attach, hm, hadd]
              | none =>
                simp [setupVF, hmech, hload, hvf, hres, setupVF.attach, hm, hadd,
                  setupVF.publish, hq]
          | ok portNo =>
            cases hm : m r with
            | some k =>
              simp [setupVF, hmech, hload, hvf, hres, setupVF.attach, hm, setupVF.publish,
                hq] at herr
            | none =>
              cases hadd : (env.RunOVSVsctl (addPortArgs bridgeName r)).err with
              | some e1 =>
                simp [setupVF, hmech, hload, hvf, hres, setupVF.attach, hm, hadd]
              | none =>
                simp [setupVF, hmech, hload, hvf, hres, setupVF.attach, hm, hadd,
                  setupVF.publish, hq] at herr

/-- A call that passes the short-circuits and succeeds has resolved the
representor, obtained its port number and stored the Port Info record. -/
theorem setupVF_ctx_of_success (env : Env) (ctx : Ctx) (conn : Connection)
    (bridgeName : String) (m : Registry) (isClient : Bool) (mech : Mechanism)
    (hmech : conn.kernelMechanism = some mech) (hload : ifnames.Load ctx isClient = none)
    (herr : (setupVF env ctx conn bridgeName m isClient).err = none) :
    ∃ (vf : VFConfig) (r : String) (portNo : Int),
      vfconfig.Load ctx isClient = some vf ∧
      env.GetVfRepresentor vf.PFInterfaceName vf.VFNum = .ok r ∧
      env.GetInterfaceOfPort r = .ok portNo ∧
      (setupVF env ctx conn bridgeName m isClient).ctx =
        ifnames.Store ctx isClient
          { PortName := r, PortNo := portNo, VlanID := mech.VLAN, IsVfRepresentor := true } := by
  cases hvf : vfconfig.Load ctx isClient with
  | none => simp [setupVF, hmech, hload, hvf] at herr
  | some vf =>
    cases hres : env.GetVfRepresentor vf.PFInterfaceName vf.VFNum with
    | error e => simp [setupVF, hmech, hload, hvf, hres] at herr
    | ok r =>
      cases hq : env.GetInterfaceOfPort r with
      | error e =>
        cases hm : m r with
        | some k =>
          simp [setupVF, hmech, hload, hvf, hres, setupVF.attach, hm, setupVF.publish,
            hq] at herr
        | none =>
          cases hadd : (env.RunOVSVsctl (addPortArgs bridgeName r)).err with
          | some e1 => simp [setupVF, hmech, hload, hvf, hres, setupVF.attach, hm, hadd] at herr
          | none =>
            simp [setupVF, hmech, hload, hvf, hres, setupVF.attach, hm, hadd, setupVF.publish,
              hq] at herr
      | ok portNo =>
        refine ⟨vf, r, portNo, rfl, hres, hq, ?_⟩
        cases hm : m r with
        | some k =>
          simp [setupVF, hmech, hload, hvf, hres, setupVF.attach, hm, setupVF.publish, hq]
        | none =>
          cases hadd : (env.RunOVSVsctl (addPortArgs bridgeName r)).err with
          | some e1 => simp [setupVF, hmech, hload, hvf, hres, setupVF.attach, hm, hadd] at herr
          | none =>
            simp [setupVF, hmech, hload, hvf, hres, setupVF.attach, hm, hadd, setupVF.publish,
              hq]

/-- With no kernel mechanism, or with Port Info stored for the role, `setupVF`
returns at once. -/
theorem setupVF_shortCircuit (env : Env) (ctx : Ctx) (conn : Connection)
    (bridgeName : String) (m : Registry) (isClient : Bool)
    (h : conn.kernelMechanism = none ∨ ifnames.Load ctx isClient ≠ none) :
    setupVF env ctx conn bridgeName m isClient =
      { err := none, ctx := ctx, parentIfRefCount := m, calls := [], logs := [] } := by
  unfold setupVF
  cases hmech : conn.kernelMechanism with
  | none => rfl
  | some mech =>
    cases hload : ifnames.Load ctx isClient with
    | some p => rfl
    | none =>
      rcases h with h | h
      · simp [hmech] at h
      · exact absurd hload h

/-! ## Claims on `setupVF` -/

/-- C6: Attach is idempotent per connection and role: for every connection
context in which a Port Info record is stored for the role, and so for the
context left by a successful Attach of the same connection and role, calling
`setupVF`, with any table and any outcomes of the external calls, returns
success, issues no external call, leaves the table unchanged and leaves the
context, and so the stored Port Info, unchanged. -/
theorem setupVF_idempotent (env : Env) (ctx : Ctx) (conn : Connection) (bridgeName : String)
    (m : Registry) (isClient : Bool)
    (h : ifnames.Load ctx isClient ≠ none ∨
      ∃ (env0 : Env) (ctx0 : Ctx) (bridge0 : String) (m0 : Registry),
        (setupVF env0 ctx0 conn bridge0 m0 isClient).err = none ∧
        ctx = (setupVF env0 ctx0 conn bridge0 m0 isClient).ctx) :
    (setupVF env ctx conn bridgeName m isClient).err = none ∧
    (setupVF env ctx conn bridgeName m isClient).calls = [] ∧
    (setupVF env ctx conn bridgeName m isClient).parentIfRefCount = m ∧
    (setupVF env ctx conn bridgeName m isClient).ctx = ctx := by
  have hshort : conn.kernelMechanism = none ∨ ifnames.Load ctx isClient ≠ none := by
    rcases h with h | ⟨env0, ctx0, bridge0, m0, herr, hctx⟩
    · exact Or.inr h
    · cases hmech : conn.kernelMechanism with
      | none => exact Or.inl rfl
      | some mech =>
        right
        cases hload : ifnames.Load ctx0 isClient with
        | some p =>
          have := setupVF_shortCircuit env0 ctx0 conn bridge0 m0 isClient
            (Or.inr (by simp [hload]))
          rw [hctx, this]
          simp [hload]
        | none =>
          obtain ⟨vf, r, portNo, -, -, -, hstore⟩ :=
            setupVF_ctx_of_success env0 ctx0 conn bridge0 m0 isClient mech hmech hload herr
          rw [hctx, hstore, ifnames.Load_Store]
          simp
  rw [setupVF_shortCircuit env ctx conn bridgeName m isClient hshort]
  exact ⟨rfl, rfl, rfl, rfl⟩

/-- Witness for C6: Attach(A) again, on the context and the table left by Attach(A). -/
theorem setupVF_idempotent_witness :
    ((scenarioAttachA.err = none ∧ scenarioAttachA.parentIfRefCount "pf0vf1" = some 1 ∧
      ifnames.Load scenarioAttachA.ctx true = some samplePortInfo)) ∧
    (setupVF (sampleEnv true true) scenarioAttachA.ctx sampleConn "br0"
      scenarioAttachA.parentIfRefCount true).err = none ∧
    (setupVF (sampleEnv true true) scenarioAttachA.ctx sampleConn "br0"
      scenarioAttachA.parentIfRefCount true).calls = [] ∧
    (setupVF (sampleEnv true true) scenarioAttachA.ctx sampleConn "br0"
      scenarioAttachA.parentIfRefCount true).parentIfRefCount =
        scenarioAttachA.parentIfRefCount ∧
    (setupVF (sampleEnv true true) scenarioAttachA.ctx sampleConn "br0"
      scenarioAttachA.parentIfRefCount true).ctx = scenarioAttachA.ctx :=
  ⟨⟨by decide, by decide, by decide⟩,
    setupVF_idempotent (sampleEnv true true) scenarioAttachA.ctx sampleConn "br0"
      scenarioAttachA.parentIfRefCount true
      (Or.inr ⟨sampleEnv true true, sampleCtx, "br0", Registry.empty, by decide, rfl⟩)⟩

/-- C7: for every Attach call that reaches the add-port step (kernel mechanism,
no Port Info stored, VF descriptor stored, the resolver succeeds, no entry for
the representor) and whose add-port command fails: `setupVF` returns an error,
the table is as before the call, the port-number query is not issued, and no
Port Info is published. -/
theorem setupVF_addPort_failure (env : Env) (ctx : Ctx) (conn : Connection)
    (bridgeName : String) (m : Registry) (isClient : Bool) (mech : Mechanism) (vf : VFConfig)
    (r e : String)
    (hmech : conn.kernelMechanism = some mech) (hload : ifnames.Load ctx isClient = none)
    (hvf : vfconfig.Load ctx isClient = some vf)
    (hres : env.GetVfRepresentor vf.PFInterfaceName vf.VFNum = .ok r) (hm : m r = none)
    (hfail : (env.RunOVSVsctl (addPortArgs bridgeName r)).err = some e) :
    (setupVF env ctx conn bridgeName m isClient).err =
      some (.addPortFailed r bridgeName (env.RunOVSVsctl (addPortArgs bridgeName r)).stdout
        (env.RunOVSVsctl (addPortArgs bridgeName r)).stderr e) ∧
    (setupVF env ctx conn bridgeName m isClient).parentIfRefCount = m ∧
    (setupVF env ctx conn bridgeName m isClient).calls =
      [.GetVfRepresentor vf.PFInterfaceName vf.VFNum,
        .RunOVSVsctl (addPortArgs bridgeName r)] ∧
    (∀ port, Call.GetInterfaceOfPort port ∉
      (setupVF env ctx conn bridgeName m isClient).calls) ∧
    (setupVF env ctx conn bridgeName m isClient).ctx = ctx ∧
    ifnames.Load (setupVF env ctx conn bridgeName m isClient).ctx isClient = none := by
  have hout : setupVF env ctx conn bridgeName m isClient =
      { err := some (.addPortFailed r bridgeName
          (env.RunOVSVsctl (addPortArgs bridgeName r)).stdout
          (env.RunOVSVsctl (addPortArgs bridgeName r)).stderr e),
        ctx := ctx, parentIfRefCount := m,
        calls := [.GetVfRepresentor vf.PFInterfaceName vf.VFNum,
          .RunOVSVsctl (addPortArgs bridgeName r)],
        logs := [.addPort r bridgeName (env.RunOVSVsctl (addPortArgs bridgeName r)).stdout
          (env.RunOVSVsctl (addPortArgs bridgeName r)).stderr e] } := by
    simp [setupVF, hmech, hload, hvf, hres, setupVF.attach, hm, hfail]
  rw [hout]
  exact ⟨rfl, rfl, rfl, by simp, rfl, hload⟩

/-- Witness for C7: a fresh connection on the empty table, the add-port command failing. -/
theorem setupVF_addPort_failure_witness :
    (sampleConn.kernelMechanism = some ⟨100⟩ ∧ ifnames.Load sampleCtx true = none ∧
      vfconfig.Load sampleCtx true = some ⟨"pf0", 1⟩ ∧ Registry.empty "pf0vf1" = none) ∧
    (setupVF (sampleEnv false true) sampleCtx sampleConn "br0" Registry.empty true).err =
      some (.addPortFailed "pf0vf1" "br0"
        ((sampleEnv false true).RunOVSVsctl (addPortArgs "br0" "pf0vf1")).stdout
        ((sampleEnv false true).RunOVSVsctl (addPortArgs "br0" "pf0vf1")).stderr
        "exit status 1") ∧
    (setupVF (sampleEnv false true) sampleCtx sampleConn "br0" Registry.empty
      true).parentIfRefCount = Registry.empty ∧
    (setupVF (sampleEnv false true) sampleCtx sampleConn "br0" Registry.empty true).calls =
      [.GetVfRepresentor (VFConfig.mk "pf0" 1).PFInterfaceName (VFConfig.mk "pf0" 1).VFNum,
        .RunOVSVsctl (addPortArgs "br0" "pf0vf1")] ∧
    (∀ port, Call.GetInterfaceOfPort port ∉
      (setupVF (sampleEnv false true) sampleCtx sampleConn "br0" Registry.empty true).calls) ∧
    (setupVF (sampleEnv false true) sampleCtx sampleConn "br0" Registry.empty true).ctx =
      sampleCtx ∧
    ifnames.Load
      (setupVF (sampleEnv false true) sampleCtx sampleConn "br0" Registry.empty true).ctx
      true = none :=
  ⟨⟨rfl, rfl, rfl, rfl⟩,
    setupVF_addPort_failure (sampleEnv false true) sampleCtx sampleConn "br0" Registry.empty
      true ⟨100⟩ ⟨"pf0", 1⟩ "pf0vf1" "exit status 1" rfl rfl rfl rfl rfl (by decide)⟩

/-- The table with `pf0vf1 ↦ 9223372036854775807` after an Attach call that
resolves to `pf0vf1`: the count is -9223372036854775808. -/
theorem setupVF_sampleRegistryMax (c : AttachCall) (bridgeName : String)
    (h : c.resolvesTo "pf0vf1") :
    sampleRegistryMax "pf0vf1" = some 9223372036854775807 ∧
    (setupVF c.env c.ctx c.conn bridgeName sampleRegistryMax c.isClient).parentIfRefCount
      "pf0vf1" = some (-9223372036854775808) := by
  have hm : sampleRegistryMax "pf0vf1" = some maxInt := Registry.store_same _ _ _
  refine ⟨hm, ?_⟩
  rw [(setupVF_present c "pf0vf1" bridgeName sampleRegistryMax maxInt h hm).2.2,
    wrapInt_maxInt_succ]
  rfl

/-- C8 (counterexample): a fresh connection resolving to `pf0vf1`, whose entry is
there with count 9223372036854775807, the port-number query failing: `setupVF`
returns the error of the query and leaves the count -9223372036854775808, which
is not one more than before. -/
theorem setupVF_portQuery_failure_count_wraps :
    (sampleConn.kernelMechanism = some ⟨100⟩ ∧ ifnames.Load sampleCtx true = none ∧
      vfconfig.Load sampleCtx true = some ⟨"pf0", 1⟩ ∧
      (sampleEnv true false).GetVfRepresentor "pf0" 1 = .ok "pf0vf1" ∧
      sampleRegistryMax "pf0vf1" ≠ none ∧
      (sampleEnv true false).GetInterfaceOfPort "pf0vf1" = .error "no ofport") ∧
    sampleRegistryMax "pf0vf1" = some 9223372036854775807 ∧
    (setupVF (sampleEnv true false) sampleCtx sampleConn "br0" sampleRegistryMax
      true).parentIfRefCount "pf0vf1" = some (-9223372036854775808) ∧
    (setupVF (sampleEnv true false) sampleCtx sampleConn "br0" sampleRegistryMax
      true).parentIfRefCount "pf0vf1" ≠ some (9223372036854775807 + 1) := by
  have h := setupVF_sampleRegistryMax ⟨sampleEnv true false, sampleCtx, sampleConn, true⟩ "br0"
    ⟨by decide, by decide, ⟨"pf0", 1⟩, rfl, rfl⟩
  refine ⟨⟨rfl, rfl, rfl, rfl, by rw [h.1]; simp, rfl⟩, h.1, h.2, ?_⟩
  have h2 : (setupVF (sampleEnv true false) sampleCtx sampleConn "br0" sampleRegistryMax
      true).parentIfRefCount "pf0vf1" = some (-9223372036854775808) := h.2
  rw [h2]
  intro hcontra
  have := Option.some.inj hcontra
  omega

/-- C8 (amended): for every Attach call whose add-port step passes (the entry is
there already, or the add-port command succeeds) but whose port-number query
fails: `setupVF` returns an error, no Port Info is published, and the increment
is not rolled back: the count of the representor is the count before the call
(an absent entry counting as 0) plus one, wrapped to 64 bits, which is exactly
one more than before when the count before is a Go `int` less than the largest,
9223372036854775807; the other entries are as before; starting with no entry the
count is 1. -/
theorem setupVF_portQuery_failure (env : Env) (ctx : Ctx) (conn : Connection)
    (bridgeName : String) (m : Registry) (isClient : Bool) (mech : Mechanism) (vf : VFConfig)
    (r e : String)
    (hmech : conn.kernelMechanism = some mech) (hload : ifnames.Load ctx isClient = none)
    (hvf : vfconfig.Load ctx isClient = some vf)
    (hres : env.GetVfRepresentor vf.PFInterfaceName vf.VFNum = .ok r)
    (hadd : m r ≠ none ∨ (env.RunOVSVsctl (addPortArgs bridgeName r)).err = none)
    (hq : env.GetInterfaceOfPort r = .error e) :
    (setupVF env ctx conn bridgeName m isClient).err = some (.portQueryFailed e) ∧
    (setupVF env ctx conn bridgeName m isClient).ctx = ctx ∧
    ifnames.Load (setupVF env ctx conn bridgeName m isClient).ctx isClient = none ∧
    (setupVF env ctx conn bridgeName m isClient).parentIfRefCount r =
      some (wrapInt (Registry.get m r + 1)) ∧
    (minInt ≤ Registry.get m r → Registry.get m r < maxInt →
      (setupVF env ctx conn bridgeName m isClient).parentIfRefCount r =
        some (Registry.get m r + 1)) ∧
    (∀ x, x ≠ r → (setupVF env ctx conn bridgeName m isClient).parentIfRefCount x = m x) ∧
    (m r = none → (setupVF env ctx conn bridgeName m isClient).parentIfRefCount r = some 1) := by
  have hattach : setupVF env ctx conn bridgeName m isClient =
      setupVF.attach env ctx mech bridgeName m isClient r
        [.GetVfRepresentor vf.PFInterfaceName vf.VFNum] := by
    simp [setupVF, hmech, hload, hvf, hres]
  rw [hattach]
  have hcore : (setupVF.attach env ctx mech bridgeName m isClient r
        [.GetVfRepresentor vf.PFInterfaceName vf.VFNum]).err = some (.portQueryFailed e) ∧
      (setupVF.attach env ctx mech bridgeName m isClient r
        [.GetVfRepresentor vf.PFInterfaceName vf.VFNum]).ctx = ctx ∧
      (setupVF.attach env ctx mech bridgeName m isClient r
        [.GetVfRepresentor vf.PFInterfaceName vf.VFNum]).parentIfRefCount r =
          some (wrapInt (Registry.get m r + 1)) ∧
      (∀ x, x ≠ r → (setupVF.attach env ctx mech bridgeName m isClient r
        [.GetVfRepresentor vf.PFInterfaceName vf.VFNum]).parentIfRefCount x = m x) := by
    cases hm : m r with
    | some k =>
      refine ⟨?_, ?_, ?_, ?_⟩
      · simp [setupVF.attach, hm, setupVF.publish, hq]
      · simp [setupVF.attach, hm, setupVF.publish, hq]
      · simp [setupVF.attach, hm, setupVF.publish_registry, Registry.store, Registry.get]
      · intro x hx
        simp [setupVF.attach, hm, setupVF.publish_registry, Registry.store, hx]
    | none =>
      have hok : (env.RunOVSVsctl (addPortArgs bridgeName r)).err = none := by
        rcases hadd with h | h
        · exact absurd hm h
        · exact h
      refine ⟨?_, ?_, ?_, ?_⟩
      · simp [setupVF.attach, hm, hok, setupVF.publish, hq]
      · simp [setupVF.attach, hm, hok, setupVF.publish, hq]
      · simp [setupVF.attach, hm, hok, setupVF.publish_registry, Registry.store, Registry.get]
      · intro x hx
        simp [setupVF.attach, hm, hok, setupVF.publish_registry, Registry.store, hx]
  obtain ⟨h1, h2, h3, h4⟩ := hcore
  refine ⟨h1, h2, by rw [h2]; exact hload, h3, ?_, h4, ?_⟩
  · intro hlo hhi
    rw [h3, wrapInt_of_range _ (by omega) (by omega)]
  · intro hm
    rw [h3]
    simp [Registry.get, hm, wrapInt_one]

/-- Witness for C8 (amended): a fresh connection on the empty table, the
port-number query failing. -/
theorem setupVF_portQuery_failure_witness :
    (sampleConn.kernelMechanism = some ⟨100⟩ ∧ ifnames.Load sampleCtx true = none ∧
      vfconfig.Load sampleCtx true = some ⟨"pf0", 1⟩ ∧ Registry.empty "pf0vf1" = none ∧
      minInt ≤ Registry.get Registry.empty "pf0vf1" ∧
      Registry.get Registry.empty "pf0vf1" < maxInt) ∧
    (setupVF (sampleEnv true false) sampleCtx sampleConn "br0" Registry.empty
      true).parentIfRefCount "pf0vf1" = some (Registry.get Registry.empty "pf0vf1" + 1) ∧
    (setupVF (sampleEnv true false) sampleCtx sampleConn "br0" Registry.empty true).err =
      some (.portQueryFailed "no ofport") ∧
    (setupVF (sampleEnv true false) sampleCtx sampleConn "br0" Registry.empty true).ctx =
      sampleCtx ∧
    ifnames.Load
      (setupVF (sampleEnv true false) sampleCtx sampleConn "br0" Registry.empty true).ctx
      true = none ∧
    (setupVF (sampleEnv true false) sampleCtx sampleConn "br0" Registry.empty
      true).parentIfRefCount "pf0vf1" =
      some (wrapInt (Registry.get Registry.empty "pf0vf1" + 1)) ∧
    (minInt ≤ Registry.get Registry.empty "pf0vf1" →
      Registry.get Registry.empty "pf0vf1" < maxInt →
      (setupVF (sampleEnv true false) sampleCtx sampleConn "br0" Registry.empty
        true).parentIfRefCount "pf0vf1" = some (Registry.get Registry.empty "pf0vf1" + 1)) ∧
    (∀ x, x ≠ "pf0vf1" →
      (setupVF (sampleEnv true false) sampleCtx sampleConn "br0" Registry.empty
        true).parentIfRefCount x = Registry.empty x) ∧
    (Registry.empty "pf0vf1" = none →
      (setupVF (sampleEnv true false) sampleCtx sampleConn "br0" Registry.empty
        true).parentIfRefCount "pf0vf1" = some 1) :=
  have hall := setupVF_portQuery_failure (sampleEnv true false) sampleCtx sampleConn "br0"
    Registry.empty true ⟨100⟩ ⟨"pf0", 1⟩ "pf0vf1" "no ofport" rfl rfl rfl rfl
    (Or.inr (by decide)) rfl
  ⟨⟨rfl, rfl, rfl, rfl, by decide, by decide⟩, hall.2.2.2.2.1 (by decide) (by decide), hall⟩

/-- C9: for every Attach call with a kernel mechanism, no Port Info stored for
the role and no VF descriptor stored for the role: `setupVF` returns the error
"vfconfig not found", issues no external call, leaves the table unchanged and
publishes no Port Info. -/
theorem setupVF_vfconfig_missing (env : Env) (ctx : Ctx) (conn : Connection)
    (bridgeName : String) (m : Registry) (isClient : Bool)
    (hmech : conn.kernelMechanism ≠ none) (hload : ifnames.Load ctx isClient = none)
    (hvf : vfconfig.Load ctx isClient = none) :
    (setupVF env ctx conn bridgeName m isClient).err = some .vfconfigNotFound ∧
    (setupVF env ctx conn bridgeName m isClient).calls = [] ∧
    (setupVF env ctx conn bridgeName m isClient).parentIfRefCount = m ∧
    (setupVF env ctx conn bridgeName m isClient).ctx = ctx ∧
    ifnames.Load (setupVF env ctx conn bridgeName m isClient).ctx isClient = none := by
  obtain ⟨mech, hmech⟩ := Option.ne_none_iff_exists'.mp hmech
  have hout : setupVF env ctx conn bridgeName m isClient =
      { err := some .vfconfigNotFound, ctx := ctx, parentIfRefCount := m, calls := [],
        logs := [] } := by
    simp [setupVF, hmech, hload, hvf]
  rw [hout]
  exact ⟨rfl, rfl, rfl, rfl, hload⟩

/-- Witness for C9: a connection with a kernel mechanism and nothing stored in its context. -/
theorem setupVF_vfconfig_missing_witness :
    (sampleConn.kernelMechanism ≠ none ∧ ifnames.Load sampleCtxEmpty true = none ∧
      vfconfig.Load sampleCtxEmpty true = none) ∧
    (setupVF (sampleEnv true true) sampleCtxEmpty sampleConn "br0" sampleRegistry1 true).err =
      some .vfconfigNotFound ∧
    (setupVF (sampleEnv true true) sampleCtxEmpty sampleConn "br0" sampleRegistry1 true).calls =
      [] ∧
    (setupVF (sampleEnv true true) sampleCtxEmpty sampleConn "br0" sampleRegistry1
      true).parentIfRefCount = sampleRegistry1 ∧
    (setupVF (sampleEnv true true) sampleCtxEmpty sampleConn "br0" sampleRegistry1 true).ctx =
      sampleCtxEmpty ∧
    ifnames.Load
      (setupVF (sampleEnv true true) sampleCtxEmpty sampleConn "br0" sampleRegistry1 true).ctx
      true = none :=
  ⟨⟨by decide, rfl, rfl⟩,
    setupVF_vfconfig_missing (sampleEnv true true) sampleCtxEmpty sampleConn "br0"
      sampleRegistry1 true (by decide) rfl rfl⟩

/-- C10: for every Attach call that passes the short-circuits (kernel mechanism,
no Port Info stored for the role): when `setupVF` returns success, the Port Info
stored for the role afterward has `PortName` the resolved representor name,
`PortNo` the number returned by the port-number query, `VlanID` the VLAN of the
mechanism and `IsVfRepresentor = true`; and `setupVF` returns success exactly
when a Port Info record is stored for the role afterward, a failing call leaving
the context as it was. -/
theorem setupVF_publishes_portInfo (env : Env) (ctx : Ctx) (conn : Connection)
    (bridgeName : String) (m : Registry) (isClient : Bool) (mech : Mechanism)
    (hmech : conn.kernelMechanism = some mech) (hload : ifnames.Load ctx isClient = none) :
    ((setupVF env ctx conn bridgeName m isClient).err = none →
      ∃ (vf : VFConfig) (r : String) (portNo : Int),
        vfconfig.Load ctx isClient = some vf ∧
        env.GetVfRepresentor vf.PFInterfaceName vf.VFNum = .ok r ∧
        env.GetInterfaceOfPort r = .ok portNo ∧
        ifnames.Load (setupVF env ctx conn bridgeName m isClient).ctx isClient =
          some { PortName := r, PortNo := portNo, VlanID := mech.VLAN,
                 IsVfRepresentor := true }) ∧
    ((setupVF env ctx conn bridgeName m isClient).err = none ↔
      ifnames.Load (setupVF env ctx conn bridgeName m isClient).ctx isClient ≠ none) ∧
    ((setupVF env ctx conn bridgeName m isClient).err ≠ none →
      (setupVF env ctx conn bridgeName m isClient).ctx = ctx) := by
  have hsucc : (setupVF env ctx conn bridgeName m isClient).err = none →
      ∃ (vf : VFConfig) (r : String) (portNo : Int),
        vfconfig.Load ctx isClient = some vf ∧
        env.GetVfRepresentor vf.PFInterfaceName vf.VFNum = .ok r ∧
        env.GetInterfaceOfPort r = .ok portNo ∧
        ifnames.Load (setupVF env ctx conn bridgeName m isClient).ctx isClient =
          some { PortName := r, PortNo := portNo, VlanID := mech.VLAN,
                 IsVfRepresentor := true } := by
    intro herr
    obtain ⟨vf, r, portNo, h1, h2, h3, h4⟩ :=
      setupVF_ctx_of_success env ctx conn bridgeName m isClient mech hmech hload herr
    exact ⟨vf, r, portNo, h1, h2, h3, by rw [h4, ifnames.Load_Store]⟩
  refine ⟨hsucc, ⟨?_, ?_⟩, setupVF_ctx_of_error env ctx conn bridgeName m isClient⟩
  · intro herr
    obtain ⟨vf, r, portNo, -, -, -, h4⟩ := hsucc herr
    simp [h4]
  · intro hstored
    by_contra herr
    rw [setupVF_ctx_of_error env ctx conn bridgeName m isClient herr] at hstored
    exact hstored hload

/-- Witness for C10: a fresh connection on the empty table, all commands succeeding. -/
theorem setupVF_publishes_portInfo_witness :
    (sampleConn.kernelMechanism = some ⟨100⟩ ∧ ifnames.Load sampleCtx true = none) ∧
    ((setupVF (sampleEnv true true) sampleCtx sampleConn "br0" Registry.empty true).err = none ∧
      ifnames.Load
        (setupVF (sampleEnv true true) sampleCtx sampleConn "br0" Registry.empty true).ctx
        true =
        some { PortName := "pf0vf1", PortNo := 7, VlanID := 100, IsVfRepresentor := true }) ∧
    ((setupVF (sampleEnv true true) sampleCtx sampleConn "br0" Registry.empty true).err = none →
      ∃ (vf : VFConfig) (r : String) (portNo : Int),
        vfconfig.Load sampleCtx true = some vf ∧
        (sampleEnv true true).GetVfRepresentor vf.PFInterfaceName vf.VFNum = .ok r ∧
        (sampleEnv true true).GetInterfaceOfPort r = .ok portNo ∧
        ifnames.Load
          (setupVF (sampleEnv true true) sampleCtx sampleConn "br0" Registry.empty true).ctx
          true =
          some { PortName := r, PortNo := portNo, VlanID := (Mechanism.mk 100).VLAN,
                 IsVfRepresentor := true }) ∧
    ((setupVF (sampleEnv true true) sampleCtx sampleConn "br0" Registry.empty true).err = none ↔
      ifnames.Load
        (setupVF (sampleEnv true true) sampleCtx sampleConn "br0" Registry.empty true).ctx
        true ≠ none) ∧
    ((setupVF (sampleEnv true true) sampleCtx sampleConn "br0" Registry.empty true).err ≠ none →
      (setupVF (sampleEnv true true) sampleCtx sampleConn "br0" Registry.empty true).ctx =
        sampleCtx) :=
  ⟨⟨rfl, rfl⟩, ⟨by decide, by decide⟩,
    setupVF_publishes_portInfo (sampleEnv true true) sampleCtx sampleConn "br0" Registry.empty
      true ⟨100⟩ rfl rfl⟩

/-! ## Claims on the remaining paths of one call -/

/-- C11: for every connection whose mechanism is not a kernel mechanism
(`kernel.ToMechanism` returns nil), `setupVF` returns success and does nothing:
no error is reported, no external call is issued, the table and the context are
unchanged and no Port Info is published, whatever the context holds, a missing
VF descriptor included. -/
theorem setupVF_no_kernel_mechanism (env : Env) (ctx : Ctx) (conn : Connection)
    (bridgeName : String) (m : Registry) (isClient : Bool)
    (hmech : conn.kernelMechanism = none) :
    (setupVF env ctx conn bridgeName m isClient).err = none ∧
    (setupVF env ctx conn bridgeName m isClient).calls = [] ∧
    (setupVF env ctx conn bridgeName m isClient).parentIfRefCount = m ∧
    (setupVF env ctx conn bridgeName m isClient).ctx = ctx ∧
    ifnames.Load (setupVF env ctx conn bridgeName m isClient).ctx isClient =
      ifnames.Load ctx isClient := by
  rw [setupVF_shortCircuit env ctx conn bridgeName m isClient (Or.inl hmech)]
  exact ⟨rfl, rfl, rfl, rfl, rfl⟩

/-- Witness for C11: a connection without kernel mechanism and with nothing stored
in its context. -/
theorem setupVF_no_kernel_mechanism_witness :
    (sampleConnOther.kernelMechanism = none ∧ vfconfig.Load sampleCtxEmpty true = none) ∧
    (setupVF (sampleEnv false false) sampleCtxEmpty sampleConnOther "br0" sampleRegistry1
      true).err = none ∧
    (setupVF (sampleEnv false false) sampleCtxEmpty sampleConnOther "br0" sampleRegistry1
      true).calls = [] ∧
    (setupVF (sampleEnv false false) sampleCtxEmpty sampleConnOther "br0" sampleRegistry1
      true).parentIfRefCount = sampleRegistry1 ∧
    (setupVF (sampleEnv false false) sampleCtxEmpty sampleConnOther "br0" sampleRegistry1
      true).ctx = sampleCtxEmpty ∧
    ifnames.Load (setupVF (sampleEnv false false) sampleCtxEmpty sampleConnOther "br0"
      sampleRegistry1 true).ctx true = ifnames.Load sampleCtxEmpty true :=
  ⟨⟨rfl, rfl⟩,
    setupVF_no_kernel_mechanism (sampleEnv false false) sampleCtxEmpty sampleConnOther "br0"
      sampleRegistry1 true rfl⟩

/-- C12: for every Attach call with a kernel mechanism, no Port Info stored and a
VF descriptor stored, if the representor resolver fails then `setupVF` returns
an error carrying the PF name and the cause, issues no command to the bridge
(the resolver call is the only external call), leaves the table unchanged and
publishes no Port Info. -/
theorem setupVF_resolver_failure (env : Env) (ctx : Ctx) (conn : Connection)
    (bridgeName : String) (m : Registry) (isClient : Bool) (vf : VFConfig) (e : String)
    (hmech : conn.kernelMechanism ≠ none) (hload : ifnames.Load ctx isClient = none)
    (hvf : vfconfig.Load ctx isClient = some vf)
    (hres : env.GetVfRepresentor vf.PFInterfaceName vf.VFNum = .error e) :
    (setupVF env ctx conn bridgeName m isClient).err =
      some (.representorNotFound vf.PFInterfaceName e) ∧
    (setupVF env ctx conn bridgeName m isClient).calls =
      [.GetVfRepresentor vf.PFInterfaceName vf.VFNum] ∧
    (∀ c ∈ (setupVF env ctx conn bridgeName m isClient).calls, c.isBridge = false) ∧
    (setupVF env ctx conn bridgeName m isClient).parentIfRefCount = m ∧
    (setupVF env ctx conn bridgeName m isClient).ctx = ctx ∧
    ifnames.Load (setupVF env ctx conn bridgeName m isClient).ctx isClient = none := by
  obtain ⟨mech, hmech⟩ := Option.ne_none_iff_exists'.mp hmech
  have hout : setupVF env ctx conn bridgeName m isClient =
      { err := some (.representorNotFound vf.PFInterfaceName e), ctx := ctx,
        parentIfRefCount := m, calls := [.GetVfRepresentor vf.PFInterfaceName vf.VFNum],
        logs := [] } := by
    simp [setupVF, hmech, hload, hvf, hres]
  rw [hout]
  exact ⟨rfl, rfl, by simp [Call.isBridge], rfl, rfl, hload⟩

/-- Witness for C12: a fresh connection whose VF `(pf9, 0)` has no representor. -/
theorem setupVF_resolver_failure_witness :
    (sampleConn.kernelMechanism ≠ none ∧ ifnames.Load sampleCtxUnknownVF true = none ∧
      vfconfig.Load sampleCtxUnknownVF true = some ⟨"pf9", 0⟩ ∧
      (sampleEnv true true).GetVfRepresentor "pf9" 0 = .error "representor not found") ∧
    (setupVF (sampleEnv true true) sampleCtxUnknownVF sampleConn "br0" sampleRegistry1
      true).err =
      some (.representorNotFound (VFConfig.mk "pf9" 0).PFInterfaceName
        "representor not found") ∧
    (setupVF (sampleEnv true true) sampleCtxUnknownVF sampleConn "br0" sampleRegistry1
      true).calls =
      [.GetVfRepresentor (VFConfig.mk "pf9" 0).PFInterfaceName (VFConfig.mk "pf9" 0).VFNum] ∧
    (∀ c ∈ (setupVF (sampleEnv true true) sampleCtxUnknownVF sampleConn "br0" sampleRegistry1
      true).calls, c.isBridge = false) ∧
    (setupVF (sampleEnv true true) sampleCtxUnknownVF sampleConn "br0" sampleRegistry1
      true).parentIfRefCount = sampleRegistry1 ∧
    (setupVF (sampleEnv true true) sampleCtxUnknownVF sampleConn "br0" sampleRegistry1
      true).ctx = sampleCtxUnknownVF ∧
    ifnames.Load (setupVF (sampleEnv true true) sampleCtxUnknownVF sampleConn "br0"
      sampleRegistry1 true).ctx true = none :=
  ⟨⟨by decide, rfl, rfl, rfl⟩,
    setupVF_resolver_failure (sampleEnv true true) sampleCtxUnknownVF sampleConn "br0"
      sampleRegistry1 true ⟨"pf9", 0⟩ "representor not found" (by decide) rfl rfl rfl⟩

/-- C14: for every table in which `portInfo.PortName` has count `c ≥ 2`, every
bridge name, every value of `isL2Connect` and every outcome of the commands,
`resetVF` returns no error, issues no external call, and the resulting table
has count `c - 1` for `portInfo.PortName`, the other entries being as before. -/
theorem resetVF_decrements (env : Env) (portInfo : OvsPortInfo) (m : Registry)
    (bridgeName : String) (isL2Connect : Bool) (c : Int)
    (hm : m portInfo.PortName = some c) (hc : 2 ≤ c) :
    (resetVF env portInfo m bridgeName isL2Connect).err = none ∧
    (resetVF env portInfo m bridgeName isL2Connect).calls = [] ∧
    (resetVF env portInfo m bridgeName isL2Connect).parentIfRefCountMap portInfo.PortName =
      some (c - 1) ∧
    (∀ x, x ≠ portInfo.PortName →
      (resetVF env portInfo m bridgeName isL2Connect).parentIfRefCountMap x = m x) := by
  rw [resetVF_of_two_le env portInfo m bridgeName isL2Connect c hm hc]
  exact ⟨rfl, rfl, Registry.store_same _ _ _, fun x hx => Registry.store_other _ _ _ _ hx⟩

/-- Witness for C14: count 2 for `pf0vf1`, not L2 connect, the del-port command
failing if it were issued. -/
theorem resetVF_decrements_witness :
    (sampleRegistry2 samplePortInfo.PortName = some 2 ∧ (2 : Int) ≤ 2) ∧
    (resetVF (sampleEnv false true) samplePortInfo sampleRegistry2 "br0" false).err = none ∧
    (resetVF (sampleEnv false true) samplePortInfo sampleRegistry2 "br0" false).calls = [] ∧
    (resetVF (sampleEnv false true) samplePortInfo sampleRegistry2 "br0"
      false).parentIfRefCountMap samplePortInfo.PortName = some (2 - 1) ∧
    (∀ x, x ≠ samplePortInfo.PortName →
      (resetVF (sampleEnv false true) samplePortInfo sampleRegistry2 "br0"
        false).parentIfRefCountMap x = sampleRegistry2 x) :=
  ⟨⟨by decide, by decide⟩,
    resetVF_decrements (sampleEnv false true) samplePortInfo sampleRegistry2 "br0" false 2
      (by decide) (by decide)⟩

/-! ## The effect of one call on the table and on the bridge -/

theorem Bridge.command_addPort (env : Env) (b : Bridge) (bridgeName r : String)
    (hok : (env.RunOVSVsctl (addPortArgs bridgeName r)).err = none) :
    Bridge.command env b (.RunOVSVsctl (addPortArgs bridgeName r)) = Bridge.addPort b r := by
  simp only [Bridge.command, hok, Call.isAddPort_addPortArgs]
  simp [addPortArgs]

theorem Bridge.command_delPort (env : Env) (b : Bridge) (bridgeName r : String)
    (hok : (env.RunOVSVsctl (delPortArgs bridgeName r)).err = none) :
    Bridge.command env b (.RunOVSVsctl (delPortArgs bridgeName r)) = Bridge.delPort b r := by
  simp only [Bridge.command, hok, Call.isAddPort_delPortArgs, Call.isDelPort_delPortArgs]
  simp [delPortArgs]

theorem Bridge.command_resolver (env : Env) (b : Bridge) (pf : String) (n : Int) :
    Bridge.command env b (.GetVfRepresentor pf n) = b := rfl

theorem Bridge.command_portQuery (env : Env) (b : Bridge) (port : String) :
    Bridge.command env b (.GetInterfaceOfPort port) = b := rfl

theorem Bridge.command_failed (env : Env) (b : Bridge) (args : List String) (e : String)
    (hfail : (env.RunOVSVsctl args).err = some e) :
    Bridge.command env b (.RunOVSVsctl args) = b := by
  simp [Bridge.command, hfail]

/-- Writing 0 and then incrementing leaves count 1. -/
theorem Registry.store_zero_incr (m : Registry) (r : String) :
    Registry.store (Registry.store m r 0) r
        (wrapInt (Registry.get (Registry.store m r 0) r + 1)) =
      Registry.store m r 1 := by
  funext x
  by_cases hx : x = r <;> simp [Registry.store, Registry.get, hx, wrapInt_one]

/-- What one call of `setupVF` does to the table and to the bridge: nothing; or
one more, wrapped to 64 bits, on the entry of the resolved name; or, when there
was no entry and the
add-port command succeeded, count 1 and the port attached. -/
theorem setupVF_effect (env : Env) (ctx : Ctx) (conn : Connection) (bridgeName : String)
    (m : Registry) (isClient : Bool) (b : Bridge) :
    ((setupVF env ctx conn bridgeName m isClient).parentIfRefCount = m ∧
      Bridge.after env b (setupVF env ctx conn bridgeName m isClient).calls = b) ∨
    (∃ (r : String) (k : Int), setupVF.resolved env ctx isClient = some r ∧ m r = some k ∧
      (setupVF env ctx conn bridgeName m isClient).parentIfRefCount =
        Registry.store m r (wrapInt (k + 1)) ∧
      Bridge.after env b (setupVF env ctx conn bridgeName m isClient).calls = b) ∨
    (∃ r : String, setupVF.resolved env ctx isClient = some r ∧ m r = none ∧
      (setupVF env ctx conn bridgeName m isClient).parentIfRefCount = Registry.store m r 1 ∧
      Bridge.after env b (setupVF env ctx conn bridgeName m isClient).calls =
        Bridge.addPort b r) := by
  cases hmech : conn.kernelMechanism with
  | none =>
    left
    rw [setupVF_shortCircuit env ctx conn bridgeName m isClient (Or.inl hmech)]
    exact ⟨rfl, rfl⟩
  | some mech =>
    cases hload : ifnames.Load ctx isClient with
    | some p =>
      left
      rw [setupVF_shortCircuit env ctx conn bridgeName m isClient (Or.inr (by simp [hload]))]
      exact ⟨rfl, rfl⟩
    | none =>
      cases hvf : vfconfig.Load ctx isClient with
      | none =>
        left
        simp [setupVF, hmech, hload, hvf, Bridge.after]
      | some vf =>
        cases hres : env.GetVfRepresentor vf.PFInterfaceName vf.VFNum with
        | error e =>
          left
          simp [setupVF, hmech, hload, hvf, hres, Bridge.after, Bridge.command_resolver]
        | ok r =>
          have hresolved : setupVF.resolved env ctx isClient = some r := by
            simp [setupVF.resolved, hvf, hres]
          have hattach : setupVF env ctx conn bridgeName m isClient =
              setupVF.attach env ctx mech bridgeName m isClient r
                [.GetVfRepresentor vf.PFInterfaceName vf.VFNum] := by
            simp [setupVF, hmech, hload, hvf, hres]
          rw [hattach]
          cases hm : m r with
          | some k =>
            right
            left
            refine ⟨r, k, hresolved, hm, ?_, ?_⟩
            · simp [setupVF.attach, hm, setupVF.publish_registry, Registry.get]
            · simp [setupVF.attach, hm, setupVF.publish_calls, Bridge.after,
                Bridge.command_resolver, Bridge.command_portQuery]
          | none =>
            cases hadd : (env.RunOVSVsctl (addPortArgs bridgeName r)).err with
            | some e1 =>
              left
              simp [setupVF.attach, hm, hadd, Bridge.after, Bridge.command_failed env _ _ e1 hadd,
                Bridge.command_resolver]
            | none =>
              right
              right
              refine ⟨r, hresolved, hm, ?_, ?_⟩
              · simp [setupVF.attach, hm, hadd, setupVF.publish_registry,
                  Registry.store_zero_incr]
              · simp [setupVF.attach, hm, hadd, setupVF.publish_calls, Bridge.after,
                  Bridge.command_addPort env _ _ _ hadd, Bridge.command_resolver,
                  Bridge.command_portQuery]

/-- The table after the decrement step, at the key of the call: an entry stays an
entry, with one less when the count was positive. -/
theorem resetVF.decrement_same (m : Registry) (name : String) :
    (resetVF.decrement m name).2 name =
      (m name).map (fun c => if c > 0 then c - 1 else c) := by
  unfold resetVF.decrement
  cases hm : m name with
  | none => simp [hm]
  | some c =>
    by_cases hc : c > 0 <;> simp [hc, hm, Registry.store]

/-- The table after the decrement step, at any other key. -/
theorem resetVF.decrement_other (m : Registry) (name x : String) (hx : x ≠ name) :
    (resetVF.decrement m name).2 x = m x := by
  unfold resetVF.decrement
  cases hm : m name with
  | none => rfl
  | some c =>
    by_cases hc : c > 0 <;> simp [hc, Registry.store, hx]

/-- Deleting the entry after the decrement step is deleting it from the table. -/
theorem resetVF.delete_decrement (m : Registry) (name : String) :
    Registry.delete (resetVF.decrement m name).2 name = Registry.delete m name := by
  funext x
  by_cases hx : x = name
  · simp [Registry.delete, hx]
  · simp [Registry.delete, hx, resetVF.decrement_other m name x hx]

/-- What one call of `resetVF` does to the table and to the bridge: with a count
of at least 2, one less; otherwise the entry is deleted, and the port removed
when del-port was issued and succeeded; unless del-port failed, in which case the
table is left as the decrement step wrote it and an error is returned. -/
theorem resetVF_effect (env : Env) (portInfo : OvsPortInfo) (m : Registry)
    (bridgeName : String) (isL2Connect : Bool) (b : Bridge) :
    (∃ c : Int, m portInfo.PortName = some c ∧ 2 ≤ c ∧
      (resetVF env portInfo m bridgeName isL2Connect).err = none ∧
      (resetVF env portInfo m bridgeName isL2Connect).parentIfRefCountMap =
        Registry.store m portInfo.PortName (c - 1) ∧
      Bridge.after env b (resetVF env portInfo m bridgeName isL2Connect).calls = b) ∨
    (isL2Connect = true ∧
      (resetVF env portInfo m bridgeName isL2Connect).err = none ∧
      (resetVF env portInfo m bridgeName isL2Connect).parentIfRefCountMap =
        Registry.delete m portInfo.PortName ∧
      Bridge.after env b (resetVF env portInfo m bridgeName isL2Connect).calls = b) ∨
    (isL2Connect = false ∧
      (resetVF env portInfo m bridgeName isL2Connect).err = none ∧
      (resetVF env portInfo m bridgeName isL2Connect).parentIfRefCountMap =
        Registry.delete m portInfo.PortName ∧
      Bridge.after env b (resetVF env portInfo m bridgeName isL2Connect).calls =
        Bridge.delPort b portInfo.PortName) ∨
    (isL2Connect = false ∧
      (resetVF env portInfo m bridgeName isL2Connect).err ≠ none ∧
      (resetVF env portInfo m bridgeName isL2Connect).parentIfRefCountMap =
        (resetVF.decrement m portInfo.PortName).2 ∧
      Bridge.after env b (resetVF env portInfo m bridgeName isL2Connect).calls = b) := by
  by_cases h0 : (resetVF.decrement m portInfo.PortName).1 = 0
  · right
    cases isL2Connect with
    | true =>
      left
      simp [resetVF, h0, resetVF.delete_decrement, Bridge.after]
    | false =>
      right
      cases hdel : (env.RunOVSVsctl (delPortArgs bridgeName portInfo.PortName)).err with
      | none =>
        left
        simp [resetVF, h0, hdel, resetVF.delete_decrement, Bridge.after,
          Bridge.command_delPort env _ _ _ hdel]
      | some e =>
        right
        simp [resetVF, h0, hdel, Bridge.after, Bridge.command_failed env _ _ e hdel]
  · left
    cases hm : m portInfo.PortName with
    | none => simp [resetVF.decrement, hm] at h0
    | some c =>
      by_cases hc : c > 0
      · have hc2 : 2 ≤ c := by
          simp [resetVF.decrement, hm, hc] at h0
          omega
        refine ⟨c, rfl, hc2, ?_⟩
        rw [resetVF_of_two_le env portInfo m bridgeName isL2Connect c hm hc2]
        exact ⟨rfl, rfl, rfl⟩
      · simp [resetVF.decrement, hm, hc] at h0

/-! ## Bounds on the counts -/

/-- A bound `0 ≤ n ≤ 1` on the counts is kept by `setupVF`, whatever it returns,
when every count is less than the largest Go `int`. -/
theorem setupVF_countsAtLeast (env : Env) (ctx : Ctx) (conn : Connection)
    (bridgeName : String) (m : Registry) (isClient : Bool) (n : Int) (h0 : 0 ≤ n) (hn : n ≤ 1)
    (h : Registry.countsAtLeast m n) (hmax : Registry.countsBelow m maxInt) :
    Registry.countsAtLeast (setupVF env ctx conn bridgeName m isClient).parentIfRefCount n := by
  intro x c hx
  rcases setupVF_effect env ctx conn bridgeName m isClient Bridge.empty with
    ⟨hreg, -⟩ | ⟨r, k, -, hm, hreg, -⟩ | ⟨r, -, -, hreg, -⟩
  · rw [hreg] at hx
    exact h x c hx
  · rw [hreg] at hx
    by_cases hxr : x = r
    · subst hxr
      have hk := h x k hm
      have hk2 := hmax x k hm
      rw [Registry.store_same, wrapInt_of_range _ (by unfold minInt; omega) (by omega)] at hx
      simp at hx
      omega
    · rw [Registry.store_other _ _ _ _ hxr] at hx
      exact h x c hx
  · rw [hreg] at hx
    by_cases hxr : x = r
    · subst hxr
      rw [Registry.store_same] at hx
      simp at hx
      omega
    · rw [Registry.store_other _ _ _ _ hxr] at hx
      exact h x c hx

/-- An upper bound `u` on the counts, with `1 ≤ u` and `u` at most the largest Go
`int`, grows by at most one in a call of `setupVF` on counts that are `≥ 0`. -/
theorem setupVF_countsBelow (env : Env) (ctx : Ctx) (conn : Connection)
    (bridgeName : String) (m : Registry) (isClient : Bool) (u : Int) (hu1 : 1 ≤ u)
    (hu : u ≤ maxInt) (hlo : Registry.countsAtLeast m 0) (hhi : Registry.countsBelow m u) :
    Registry.countsBelow (setupVF env ctx conn bridgeName m isClient).parentIfRefCount
      (u + 1) := by
  intro x c hx
  rcases setupVF_effect env ctx conn bridgeName m isClient Bridge.empty with
    ⟨hreg, -⟩ | ⟨r, k, -, hm, hreg, -⟩ | ⟨r, -, -, hreg, -⟩
  · rw [hreg] at hx
    have := hhi x c hx
    omega
  · rw [hreg] at hx
    by_cases hxr : x = r
    · subst hxr
      have hk := hlo x k hm
      have hk2 := hhi x k hm
      rw [Registry.store_same, wrapInt_of_range _ (by unfold minInt; omega) (by omega)] at hx
      simp at hx
      omega
    · rw [Registry.store_other _ _ _ _ hxr] at hx
      have := hhi x c hx
      omega
  · rw [hreg] at hx
    by_cases hxr : x = r
    · subst hxr
      rw [Registry.store_same] at hx
      simp at hx
      omega
    · rw [Registry.store_other _ _ _ _ hxr] at hx
      have := hhi x c hx
      omega

/-- An upper bound on the counts is kept by `resetVF`. -/
theorem resetVF_countsBelow (env : Env) (portInfo : OvsPortInfo) (m : Registry)
    (bridgeName : String) (isL2Connect : Bool) (u : Int) (hhi : Registry.countsBelow m u) :
    Registry.countsBelow
      (resetVF env portInfo m bridgeName isL2Connect).parentIfRefCountMap u := by
  intro x c hx
  have hdelete : ∀ y d, Registry.delete m portInfo.PortName y = some d → d < u := by
    intro y d hy
    by_cases hyn : y = portInfo.PortName
    · subst hyn
      rw [Registry.delete_same] at hy
      simp at hy
    · rw [Registry.delete_other _ _ _ hyn] at hy
      exact hhi y d hy
  rcases resetVF_effect env portInfo m bridgeName isL2Connect Bridge.empty with
    ⟨k, hm, hk, -, hreg, -⟩ | ⟨-, -, hreg, -⟩ | ⟨-, -, hreg, -⟩ | ⟨-, -, hreg, -⟩
  · rw [hreg] at hx
    by_cases hxn : x = portInfo.PortName
    · subst hxn
      have := hhi _ k hm
      rw [Registry.store_same] at hx
      simp at hx
      omega
    · rw [Registry.store_other _ _ _ _ hxn] at hx
      exact hhi x c hx
  · rw [hreg] at hx
    exact hdelete x c hx
  · rw [hreg] at hx
    exact hdelete x c hx
  · rw [hreg] at hx
    by_cases hxn : x = portInfo.PortName
    · subst hxn
      rw [resetVF.decrement_same] at hx
      cases hm : m portInfo.PortName with
      | none => simp [hm] at hx
      | some d =>
        have hd := hhi _ d hm
        simp only [hm, Option.map_some', Option.some.injEq] at hx
        by_cases hpos : d > 0
        · simp only [hpos, if_true] at hx
          omega
        · simp only [hpos, if_false] at hx
          omega
    · rw [resetVF.decrement_other _ _ _ hxn] at hx
      exact hhi x c hx

/-- A bound `n ≤ 1` on the counts is kept by `resetVF` when it returns no error,
and a bound `n ≤ 0` in every case. -/
theorem resetVF_countsAtLeast (env : Env) (portInfo : OvsPortInfo) (m : Registry)
    (bridgeName : String) (isL2Connect : Bool) (n : Int) (hn : n ≤ 1)
    (h : Registry.countsAtLeast m n)
    (hcase : n ≤ 0 ∨ (resetVF env portInfo m bridgeName isL2Connect).err = none) :
    Registry.countsAtLeast
      (resetVF env portInfo m bridgeName isL2Connect).parentIfRefCountMap n := by
  intro x c hx
  have hdelete : ∀ y d, Registry.delete m portInfo.PortName y = some d → n ≤ d := by
    intro y d hy
    by_cases hyn : y = portInfo.PortName
    · subst hyn
      rw [Registry.delete_same] at hy
      simp at hy
    · rw [Registry.delete_other _ _ _ hyn] at hy
      exact h y d hy
  rcases resetVF_effect env portInfo m bridgeName isL2Connect Bridge.empty with
    ⟨k, -, hk, -, hreg, -⟩ | ⟨-, -, hreg, -⟩ | ⟨-, -, hreg, -⟩ | ⟨-, herr, hreg, -⟩
  · rw [hreg] at hx
    by_cases hxn : x = portInfo.PortName
    · subst hxn
      rw [Registry.store_same] at hx
      simp at hx
      omega
    · rw [Registry.store_other _ _ _ _ hxn] at hx
      exact h x c hx
  · rw [hreg] at hx
    exact hdelete x c hx
  · rw [hreg] at hx
    exact hdelete x c hx
  · have hn0 : n ≤ 0 := by
      rcases hcase with h0 | h0
      · exact h0
      · exact absurd h0 herr
    rw [hreg] at hx
    by_cases hxn : x = portInfo.PortName
    · subst hxn
      rw [resetVF.decrement_same] at hx
      cases hm : m portInfo.PortName with
      | none => simp [hm] at hx
      | some d =>
        have hd := h _ d hm
        simp only [hm, Option.map_some', Option.some.injEq] at hx
        by_cases hpos : d > 0
        · simp only [hpos, if_true] at hx
          omega
        · simp only [hpos, if_false] at hx
          omega
    · rw [resetVF.decrement_other _ _ _ hxn] at hx
      exact h x c hx

/-! ## Runs of calls -/

/-- A property of the state that every call keeps holds after every run. -/
theorem State.run_invariant (P : State → Prop) (Q : Op → Prop)
    (hstep : ∀ s op, Q op → P s → P (s.step op)) :
    ∀ (ops : List Op) (s : State), (∀ op ∈ ops, Q op) → P s → P (s.run ops)
  | [], _, _, hs => hs
  | op :: ops, s, hops, hs => by
    have hrun : s.run (op :: ops) = (s.step op).run ops := rfl
    rw [hrun]
    exact State.run_invariant P Q hstep ops (s.step op)
      (fun op' hop' => hops op' (by simp [hop']))
      (hstep s op (hops op (by simp)) hs)

/-- Counts that are `≥ 0` and less than `u`, with `1 ≤ u` and `u` at most the
largest Go `int`, are `≥ 0` and less than `u + 1` after one more call. -/
theorem State.step_counts (s : State) (op : Op) (u : Int) (hu1 : 1 ≤ u) (hu : u ≤ maxInt)
    (h : Registry.countsAtLeast s.parentIfRefCount 0 ∧
      Registry.countsBelow s.parentIfRefCount u) :
    Registry.countsAtLeast (s.step op).parentIfRefCount 0 ∧
      Registry.countsBelow (s.step op).parentIfRefCount (u + 1) := by
  cases op with
  | attach bridgeName c =>
    exact ⟨setupVF_countsAtLeast c.env c.ctx c.conn bridgeName s.parentIfRefCount c.isClient 0
        (le_refl 0) (by decide) h.1 (fun k d hk => by have := h.2 k d hk; omega),
      setupVF_countsBelow c.env c.ctx c.conn bridgeName s.parentIfRefCount c.isClient u hu1 hu
        h.1 h.2⟩
  | detach bridgeName d =>
    refine ⟨resetVF_countsAtLeast d.env d.portInfo s.parentIfRefCount bridgeName d.isL2Connect 0
        (by decide) h.1 (Or.inl (le_refl 0)), ?_⟩
    intro k c hk
    have := resetVF_countsBelow d.env d.portInfo s.parentIfRefCount bridgeName d.isL2Connect u
      h.2 k c hk
    omega

/-- Counts that are `≥ 0` and less than `u` are `≥ 0` and less than `u` plus the
number of calls after a run that keeps that bound within the Go `int` range. -/
theorem State.run_counts :
    ∀ (ops : List Op) (s : State) (u : Int), 1 ≤ u → u + ops.length ≤ maxInt + 1 →
      Registry.countsAtLeast s.parentIfRefCount 0 ∧ Registry.countsBelow s.parentIfRefCount u →
      Registry.countsAtLeast (s.run ops).parentIfRefCount 0 ∧
        Registry.countsBelow (s.run ops).parentIfRefCount (u + ops.length)
  | [], s, u, _, _, h => by
    simpa [State.run] using h
  | op :: ops, s, u, hu1, hu, h => by
    have hrun : s.run (op :: ops) = (s.step op).run ops := rfl
    have hlen : ((op :: ops).length : Int) = (ops.length : Int) + 1 := by simp
    rw [hlen] at hu
    have hstep := State.step_counts s op u hu1 (by omega) h
    have ih := State.run_counts ops (s.step op) (u + 1) (by omega) (by omega) hstep
    rw [hrun, hlen]
    have hsum : u + ((ops.length : Int) + 1) = u + 1 + (ops.length : Int) := by ring
    rw [hsum]
    exact ih

/-- A registry entry is attached to the bridge: kept by every call. -/
theorem State.step_entry_attached (s : State) (op : Op)
    (h : ∀ x, s.parentIfRefCount x ≠ none → s.bridge x = true) :
    ∀ x, (s.step op).parentIfRefCount x ≠ none → (s.step op).bridge x = true := by
  intro x hx
  cases op with
  | attach bridgeName c =>
    simp only [State.step] at hx ⊢
    rcases setupVF_effect c.env c.ctx c.conn bridgeName s.parentIfRefCount c.isClient s.bridge
      with ⟨hreg, hbr⟩ | ⟨r, k, -, hm, hreg, hbr⟩ | ⟨r, -, -, hreg, hbr⟩
    · rw [hreg] at hx
      rw [hbr]
      exact h x hx
    · rw [hreg] at hx
      rw [hbr]
      by_cases hxr : x = r
      · subst hxr
        exact h x (by simp [hm])
      · rw [Registry.store_other _ _ _ _ hxr] at hx
        exact h x hx
    · rw [hreg] at hx
      rw [hbr]
      by_cases hxr : x = r
      · simp [Bridge.addPort, hxr]
      · rw [Registry.store_other _ _ _ _ hxr] at hx
        simp [Bridge.addPort, hxr, h x hx]
  | detach bridgeName d =>
    simp only [State.step] at hx ⊢
    rcases resetVF_effect d.env d.portInfo s.parentIfRefCount bridgeName d.isL2Connect s.bridge
      with ⟨k, hm, -, -, hreg, hbr⟩ | ⟨-, -, hreg, hbr⟩ | ⟨-, -, hreg, hbr⟩ | ⟨-, -, hreg, hbr⟩
    · rw [hreg] at hx
      rw [hbr]
      by_cases hxn : x = d.portInfo.PortName
      · subst hxn
        exact h _ (by simp [hm])
      · rw [Registry.store_other _ _ _ _ hxn] at hx
        exact h x hx
    · rw [hreg] at hx
      rw [hbr]
      by_cases hxn : x = d.portInfo.PortName
      · subst hxn
        exact absurd (Registry.delete_same _ _) hx
      · rw [Registry.delete_other _ _ _ hxn] at hx
        exact h x hx
    · rw [hreg] at hx
      rw [hbr]
      by_cases hxn : x = d.portInfo.PortName
      · subst hxn
        exact absurd (Registry.delete_same _ _) hx
      · rw [Registry.delete_other _ _ _ hxn] at hx
        simp [Bridge.delPort, hxn, h x hx]
    · rw [hreg] at hx
      rw [hbr]
      by_cases hxn : x = d.portInfo.PortName
      · subst hxn
        rw [resetVF.decrement_same] at hx
        exact h _ (by
          intro hnone
          simp [hnone] at hx)
      · rw [resetVF.decrement_other _ _ _ hxn] at hx
        exact h x hx

/-- A port attached to the bridge has a registry entry: kept by every call that
is not a Detach with L2 connect. -/
theorem State.step_attached_entry (s : State) (op : Op) (hop : op.isL2Detach = false)
    (h : ∀ x, s.bridge x = true → s.parentIfRefCount x ≠ none) :
    ∀ x, (s.step op).bridge x = true → (s.step op).parentIfRefCount x ≠ none := by
  intro x hx
  cases op with
  | attach bridgeName c =>
    simp only [State.step] at hx ⊢
    rcases setupVF_effect c.env c.ctx c.conn bridgeName s.parentIfRefCount c.isClient s.bridge
      with ⟨hreg, hbr⟩ | ⟨r, k, -, hm, hreg, hbr⟩ | ⟨r, -, -, hreg, hbr⟩
    · rw [hbr] at hx
      rw [hreg]
      exact h x hx
    · rw [hbr] at hx
      rw [hreg]
      by_cases hxr : x = r
      · simp [Registry.store, hxr]
      · rw [Registry.store_other _ _ _ _ hxr]
        exact h x hx
    · rw [hbr] at hx
      rw [hreg]
      by_cases hxr : x = r
      · simp [Registry.store, hxr]
      · rw [Registry.store_other _ _ _ _ hxr]
        simp only [Bridge.addPort, hxr, if_false] at hx
        exact h x hx
  | detach bridgeName d =>
    simp only [State.step] at hx ⊢
    simp only [Op.isL2Detach] at hop
    rcases resetVF_effect d.env d.portInfo s.parentIfRefCount bridgeName d.isL2Connect s.bridge
      with ⟨k, hm, -, -, hreg, hbr⟩ | ⟨hl2, -, -, -⟩ | ⟨-, -, hreg, hbr⟩ | ⟨-, -, hreg, hbr⟩
    · rw [hbr] at hx
      rw [hreg]
      by_cases hxn : x = d.portInfo.PortName
      · simp [Registry.store, hxn]
      · rw [Registry.store_other _ _ _ _ hxn]
        exact h x hx
    · rw [hl2] at hop
      exact absurd hop (by decide)
    · rw [hbr] at hx
      rw [hreg]
      by_cases hxn : x = d.portInfo.PortName
      · simp [Bridge.delPort, hxn] at hx
      · rw [Registry.delete_other _ _ _ hxn]
        simp only [Bridge.delPort, hxn, if_false] at hx
        exact h x hx
    · rw [hbr] at hx
      rw [hreg]
      by_cases hxn : x = d.portInfo.PortName
      · subst hxn
        rw [resetVF.decrement_same]
        have := h _ hx
        cases hm : s.parentIfRefCount d.portInfo.PortName with
        | none => exact absurd hm this
        | some c => simp
      · rw [resetVF.decrement_other _ _ _ hxn]
        exact h x hx

/-! ## Claims on invariants and frame -/

/-- The only count in the table `sampleRegistryMax` is the largest Go `int`. -/
theorem sampleRegistryMax_counts (k : String) (c : Int) (hk : sampleRegistryMax k = some c) :
    c = 9223372036854775807 := by
  by_cases hk1 : k = "pf0vf1"
  · simp [sampleRegistryMax, Registry.store, hk1, maxInt] at hk
    omega
  · simp [sampleRegistryMax, Registry.store, Registry.empty, hk1] at hk

/-- C15 (counterexample): the table `pf0vf1 ↦ 9223372036854775807` has all its
counts `≥ 0`; after an Attach call of a fresh connection that resolves to
`pf0vf1`, all commands succeeding, the count of `pf0vf1` is
-9223372036854775808, a negative count. -/
theorem refcount_negative_after_attach :
    Registry.countsAtLeast sampleRegistryMax 0 ∧
    (setupVF (sampleEnv true true) sampleCtx sampleConn "br0" sampleRegistryMax
      true).parentIfRefCount "pf0vf1" = some (-9223372036854775808) ∧
    ¬ Registry.countsAtLeast
      (setupVF (sampleEnv true true) sampleCtx sampleConn "br0" sampleRegistryMax
        true).parentIfRefCount 0 := by
  have h := (setupVF_sampleRegistryMax ⟨sampleEnv true true, sampleCtx, sampleConn, true⟩ "br0"
    ⟨by decide, by decide, ⟨"pf0", 1⟩, rfl, rfl⟩).2
  refine ⟨?_, h, ?_⟩
  · intro k c hk
    have := sampleRegistryMax_counts k c hk
    omega
  · intro hall
    have := hall "pf0vf1" (-9223372036854775808) h
    omega

/-- C15 (amended): for every table whose counts are all `≥ 0`: after any single
call of `setupVF`, with any arguments and any outcomes of the external calls,
every count in the resulting table is `≥ 0`, provided every count of the table
is less than the largest Go `int`, 9223372036854775807; after any single call of
`resetVF` every count in the resulting table is `≥ 0`; and so is every count in
every state reached from the empty table by a sequence of at most
9223372036854775807 calls. -/
theorem refcount_never_negative (m : Registry) (h : Registry.countsAtLeast m 0) :
    (Registry.countsBelow m maxInt →
      ∀ (env : Env) (ctx : Ctx) (conn : Connection) (bridgeName : String) (isClient : Bool),
        Registry.countsAtLeast
          (setupVF env ctx conn bridgeName m isClient).parentIfRefCount 0) ∧
    (∀ (env : Env) (portInfo : OvsPortInfo) (bridgeName : String) (isL2Connect : Bool),
      Registry.countsAtLeast
        (resetVF env portInfo m bridgeName isL2Connect).parentIfRefCountMap 0) ∧
    (∀ ops : List Op, (ops.length : Int) ≤ maxInt →
      Registry.countsAtLeast (State.run State.start ops).parentIfRefCount 0) := by
  refine ⟨?_, ?_, ?_⟩
  · intro hmax env ctx conn bridgeName isClient
    exact setupVF_countsAtLeast env ctx conn bridgeName m isClient 0 (le_refl 0) (by decide) h
      hmax
  · intro env portInfo bridgeName isL2Connect
    exact resetVF_countsAtLeast env portInfo m bridgeName isL2Connect 0 (by decide) h
      (Or.inl (le_refl 0))
  · intro ops hops
    refine (State.run_counts ops State.start 1 (le_refl 1) (by omega) ⟨?_, ?_⟩).1
    · intro k c hk
      simp [State.start, Registry.empty] at hk
    · intro k c hk
      simp [State.start, Registry.empty] at hk

/-- Witness for C15 (amended): the table `pf0vf1 ↦ 1`, and the run Attach(A),
Attach(B), Detach. -/
theorem refcount_never_negative_witness :
    (Registry.countsAtLeast sampleRegistry1 0 ∧ Registry.countsBelow sampleRegistry1 maxInt ∧
      (([Op.attach "br0" sampleAttach, Op.attach "br0" sampleAttachB,
        Op.detach "br0" sampleDetach].length : Nat) : Int) ≤ maxInt) ∧
    (∀ (env : Env) (ctx : Ctx) (conn : Connection) (bridgeName : String) (isClient : Bool),
      Registry.countsAtLeast
        (setupVF env ctx conn bridgeName sampleRegistry1 isClient).parentIfRefCount 0) ∧
    (∀ (env : Env) (portInfo : OvsPortInfo) (bridgeName : String) (isL2Connect : Bool),
      Registry.countsAtLeast
        (resetVF env portInfo sampleRegistry1 bridgeName isL2Connect).parentIfRefCountMap 0) ∧
    Registry.countsAtLeast (State.run State.start [Op.attach "br0" sampleAttach,
      Op.attach "br0" sampleAttachB, Op.detach "br0" sampleDetach]).parentIfRefCount 0 :=
  have hone : ∀ k c, sampleRegistry1 k = some c → c = 1 := by
    intro k c hk
    by_cases hk1 : k = "pf0vf1" <;>
      simp [sampleRegistry1, Registry.store, Registry.empty, hk1] at hk
    omega
  have h : Registry.countsAtLeast sampleRegistry1 0 := by
    intro k c hk
    have := hone k c hk
    omega
  have hmax : Registry.countsBelow sampleRegistry1 maxInt := by
    intro k c hk
    have := hone k c hk
    unfold maxInt
    omega
  have hlen : (([Op.attach "br0" sampleAttach, Op.attach "br0" sampleAttachB,
      Op.detach "br0" sampleDetach].length : Nat) : Int) ≤ maxInt := by decide
  ⟨⟨h, hmax, hlen⟩, (refcount_never_negative sampleRegistry1 h).1 hmax,
    (refcount_never_negative sampleRegistry1 h).2.1,
    (refcount_never_negative sampleRegistry1 h).2.2 _ hlen⟩

/-- C16 (counterexample): after Attach for `pf0vf1` and then Detach with L2
connect, both succeeding, the table has no entry for `pf0vf1` while the port is
attached to the bridge. -/
theorem l2_detach_leaves_port_without_entry :
    (State.run State.start
      [.attach "br0" sampleAttach, .detach "br0" sampleDetachL2]).parentIfRefCount "pf0vf1" =
      none ∧
    (State.run State.start
      [.attach "br0" sampleAttach, .detach "br0" sampleDetachL2]).bridge "pf0vf1" = true ∧
    ¬ ((State.run State.start
        [.attach "br0" sampleAttach, .detach "br0" sampleDetachL2]).parentIfRefCount "pf0vf1" ≠
        none ↔
      (State.run State.start
        [.attach "br0" sampleAttach, .detach "br0" sampleDetachL2]).bridge "pf0vf1" = true) := by
  decide

/-- C16 (amended): with the bridge as the set of attached port names, in every
state reached from the empty table and the empty bridge by a sequence of
completed calls, a name that has a registry entry is attached to the bridge;
and when no Detach of the sequence ran with L2 connect, a name has a registry
entry if and only if it is attached to the bridge. -/
theorem registry_entry_attached (ops : List Op) :
    (∀ x, (State.run State.start ops).parentIfRefCount x ≠ none →
      (State.run State.start ops).bridge x = true) ∧
    ((∀ op ∈ ops, op.isL2Detach = false) →
      ∀ x, (State.run State.start ops).parentIfRefCount x ≠ none ↔
        (State.run State.start ops).bridge x = true) := by
  have h1 : ∀ x, (State.run State.start ops).parentIfRefCount x ≠ none →
      (State.run State.start ops).bridge x = true :=
    State.run_invariant (fun s => ∀ x, s.parentIfRefCount x ≠ none → s.bridge x = true)
      (fun _ => True) (fun s op _ hs => State.step_entry_attached s op hs) ops State.start
      (fun _ _ => trivial) (by
        intro x hx
        simp [State.start, Registry.empty] at hx)
  refine ⟨h1, fun hops x => ⟨h1 x, ?_⟩⟩
  exact State.run_invariant (fun s => ∀ x, s.bridge x = true → s.parentIfRefCount x ≠ none)
    (fun op => op.isL2Detach = false) (fun s op hop hs => State.step_attached_entry s op hop hs)
    ops State.start hops (by
      intro x hx
      simp [State.start, Bridge.empty] at hx) x

/-- Witness for C16 (amended): Attach(A), Attach(B), Detach, then a Detach whose
del-port command fails; no Detach with L2 connect. -/
theorem registry_entry_attached_witness :
    (∀ op ∈ [Op.attach "br0" sampleAttach, Op.attach "br0" sampleAttachB,
      Op.detach "br0" sampleDetach, Op.detach "br0" sampleDetachFailing],
      op.isL2Detach = false) ∧
    ((State.run State.start [Op.attach "br0" sampleAttach, Op.attach "br0" sampleAttachB,
      Op.detach "br0" sampleDetach, Op.detach "br0" sampleDetachFailing]).parentIfRefCount
      "pf0vf1" = some 0 ∧
     (State.run State.start [Op.attach "br0" sampleAttach, Op.attach "br0" sampleAttachB,
      Op.detach "br0" sampleDetach, Op.detach "br0" sampleDetachFailing]).bridge
      "pf0vf1" = true) ∧
    (∀ x, (State.run State.start [Op.attach "br0" sampleAttach, Op.attach "br0" sampleAttachB,
      Op.detach "br0" sampleDetach, Op.detach "br0" sampleDetachFailing]).parentIfRefCount x ≠
        none →
      (State.run State.start [Op.attach "br0" sampleAttach, Op.attach "br0" sampleAttachB,
        Op.detach "br0" sampleDetach, Op.detach "br0" sampleDetachFailing]).bridge x = true) ∧
    (∀ x, (State.run State.start [Op.attach "br0" sampleAttach, Op.attach "br0" sampleAttachB,
      Op.detach "br0" sampleDetach, Op.detach "br0" sampleDetachFailing]).parentIfRefCount x ≠
        none ↔
      (State.run State.start [Op.attach "br0" sampleAttach, Op.attach "br0" sampleAttachB,
        Op.detach "br0" sampleDetach, Op.detach "br0" sampleDetachFailing]).bridge x = true) :=
  have hops : ∀ op ∈ [Op.attach "br0" sampleAttach, Op.attach "br0" sampleAttachB,
      Op.detach "br0" sampleDetach, Op.detach "br0" sampleDetachFailing],
      op.isL2Detach = false := by
    intro op hop
    simp only [List.mem_cons, List.mem_singleton, List.not_mem_nil, or_false] at hop
    rcases hop with rfl | rfl | rfl | rfl <;> rfl
  ⟨hops, ⟨by decide, by decide⟩,
    (registry_entry_attached [Op.attach "br0" sampleAttach, Op.attach "br0" sampleAttachB,
      Op.detach "br0" sampleDetach, Op.detach "br0" sampleDetachFailing]).1,
    (registry_entry_attached [Op.attach "br0" sampleAttach, Op.attach "br0" sampleAttachB,
      Op.detach "br0" sampleDetach, Op.detach "br0" sampleDetachFailing]).2 hops⟩

/-- C17: frame: for every table and every call, `setupVF` changes at most the
entry keyed by the representor name it resolves (and no entry when it resolves
none), and `resetVF` changes at most the entry keyed by `portInfo.PortName`:
the lookup of any other key is the same after the call as before, whatever the
outcomes of the external calls. -/
theorem registry_frame (m : Registry) (x : String) :
    (∀ (env : Env) (ctx : Ctx) (conn : Connection) (bridgeName : String) (isClient : Bool),
      setupVF.resolved env ctx isClient ≠ some x →
      (setupVF env ctx conn bridgeName m isClient).parentIfRefCount x = m x) ∧
    (∀ (env : Env) (portInfo : OvsPortInfo) (bridgeName : String) (isL2Connect : Bool),
      x ≠ portInfo.PortName →
      (resetVF env portInfo m bridgeName isL2Connect).parentIfRefCountMap x = m x) := by
  refine ⟨?_, ?_⟩
  · intro env ctx conn bridgeName isClient hx
    rcases setupVF_effect env ctx conn bridgeName m isClient Bridge.empty with
      ⟨hreg, -⟩ | ⟨r, k, hr, -, hreg, -⟩ | ⟨r, hr, -, hreg, -⟩
    · rw [hreg]
    · rw [hreg]
      exact Registry.store_other _ _ _ _ (fun hxr => hx (by rw [hr, hxr]))
    · rw [hreg]
      exact Registry.store_other _ _ _ _ (fun hxr => hx (by rw [hr, hxr]))
  · intro env portInfo bridgeName isL2Connect hx
    rcases resetVF_effect env portInfo m bridgeName isL2Connect Bridge.empty with
      ⟨k, -, -, -, hreg, -⟩ | ⟨-, -, hreg, -⟩ | ⟨-, -, hreg, -⟩ | ⟨-, -, hreg, -⟩
    · rw [hreg]
      exact Registry.store_other _ _ _ _ hx
    · rw [hreg]
      exact Registry.delete_other _ _ _ hx
    · rw [hreg]
      exact Registry.delete_other _ _ _ hx
    · rw [hreg]
      exact resetVF.decrement_other _ _ _ hx

/-- Witness for C17: the key `eth7`, with count 2, across an Attach and a Detach
for `pf0vf1`. -/
theorem registry_frame_witness :
    (setupVF.resolved (sampleEnv true true) sampleCtx true ≠ some "eth7" ∧
      "eth7" ≠ samplePortInfo.PortName) ∧
    (setupVF (sampleEnv true true) sampleCtx sampleConn "br0"
      (Registry.store sampleRegistry1 "eth7" 2) true).parentIfRefCount "eth7" =
      Registry.store sampleRegistry1 "eth7" 2 "eth7" ∧
    (resetVF (sampleEnv true true) samplePortInfo (Registry.store sampleRegistry1 "eth7" 2)
      "br0" false).parentIfRefCountMap "eth7" = Registry.store sampleRegistry1 "eth7" 2 "eth7" :=
  ⟨⟨by decide, by decide⟩,
    (registry_frame (Registry.store sampleRegistry1 "eth7" 2) "eth7").1 (sampleEnv true true)
      sampleCtx sampleConn "br0" true (by decide),
    (registry_frame (Registry.store sampleRegistry1 "eth7" 2) "eth7").2 (sampleEnv true true)
      samplePortInfo "br0" false (by decide)⟩

/-- C18 (counterexample): the table `pf0vf1 ↦ 9223372036854775807` has all its
counts `≥ 1`; an Attach call of a fresh connection (server role) that resolves
to `pf0vf1`, all commands succeeding, returns success and leaves the count
-9223372036854775808, which is not `≥ 1`. -/
theorem count_below_one_after_attach :
    Registry.countsAtLeast sampleRegistryMax 1 ∧
    (setupVF (sampleEnv true true) sampleCtx sampleConn "br0" sampleRegistryMax false).err =
      none ∧
    (setupVF (sampleEnv true true) sampleCtx sampleConn "br0" sampleRegistryMax
      false).parentIfRefCount "pf0vf1" = some (-9223372036854775808) ∧
    ¬ Registry.countsAtLeast
      (setupVF (sampleEnv true true) sampleCtx sampleConn "br0" sampleRegistryMax
        false).parentIfRefCount 1 := by
  have h := (setupVF_sampleRegistryMax ⟨sampleEnv true true, sampleCtx, sampleConn, false⟩
    "br0" ⟨by decide, by decide, ⟨"pf0", 1⟩, rfl, rfl⟩).2
  have herr := attachAll_err "br0" "pf0vf1"
    [⟨sampleEnv true true, sampleCtx, sampleConn, false⟩] sampleRegistryMax
    (by
      intro c hc
      simp only [List.mem_singleton] at hc
      subst hc
      exact ⟨⟨by decide, by decide, ⟨"pf0", 1⟩, rfl, rfl⟩, by decide, 7, rfl⟩)
    (setupVF (sampleEnv true true) sampleCtx sampleConn "br0" sampleRegistryMax false)
    (by simp [attachAll])
  refine ⟨?_, herr, h, ?_⟩
  · intro k c hk
    have := sampleRegistryMax_counts k c hk
    omega
  · intro hall
    have := hall "pf0vf1" (-9223372036854775808) h
    omega

/-- C18 (amended): no zero-count entry is left by a call that reports success:
for every table whose counts are all `≥ 1`, after any call of `setupVF`, whatever
it returns, every count in the resulting table is `≥ 1` provided every count of
the table is less than the largest Go `int`, 9223372036854775807; after any call
of `resetVF` that returns no error every count in the resulting table is `≥ 1`;
and, the counts being Go `int`s, a call that leaves an entry with count 0 is a
Detach that returned an error. -/
theorem no_zero_count_after_success (m : Registry) (h : Registry.countsAtLeast m 1) :
    (Registry.countsBelow m maxInt →
      ∀ (env : Env) (ctx : Ctx) (conn : Connection) (bridgeName : String) (isClient : Bool),
        Registry.countsAtLeast
          (setupVF env ctx conn bridgeName m isClient).parentIfRefCount 1) ∧
    (∀ (env : Env) (portInfo : OvsPortInfo) (bridgeName : String) (isL2Connect : Bool),
      (resetVF env portInfo m bridgeName isL2Connect).err = none →
      Registry.countsAtLeast
        (resetVF env portInfo m bridgeName isL2Connect).parentIfRefCountMap 1) ∧
    (Registry.countsBelow m (maxInt + 1) →
      ∀ (b : Bridge) (op : Op) (k : String),
        (State.step ⟨m, b⟩ op).parentIfRefCount k = some 0 →
        (∃ bridgeName d, op = .detach bridgeName d) ∧ op.err m ≠ none) := by
  have hdetach : ∀ (env : Env) (portInfo : OvsPortInfo) (bridgeName : String)
      (isL2Connect : Bool), (resetVF env portInfo m bridgeName isL2Connect).err = none →
      Registry.countsAtLeast
        (resetVF env portInfo m bridgeName isL2Connect).parentIfRefCountMap 1 :=
    fun env portInfo bridgeName isL2Connect herr =>
      resetVF_countsAtLeast env portInfo m bridgeName isL2Connect 1 (le_refl 1) h (Or.inr herr)
  refine ⟨?_, hdetach, ?_⟩
  · intro hmax env ctx conn bridgeName isClient
    exact setupVF_countsAtLeast env ctx conn bridgeName m isClient 1 (by decide) (le_refl 1) h
      hmax
  · intro hwf b op k hk
    cases op with
    | attach bridgeName c =>
      exfalso
      simp only [State.step] at hk
      rcases setupVF_effect c.env c.ctx c.conn bridgeName m c.isClient b with
        ⟨hreg, -⟩ | ⟨r, c0, -, hm, hreg, -⟩ | ⟨r, -, -, hreg, -⟩
      · rw [hreg] at hk
        have := h k 0 hk
        omega
      · rw [hreg] at hk
        by_cases hkr : k = r
        · subst hkr
          have h1 := h k c0 hm
          have h2 := hwf k c0 hm
          rw [Registry.store_same] at hk
          have h3 := Option.some.inj hk
          unfold wrapInt at h3
          unfold maxInt at h2
          omega
        · rw [Registry.store_other _ _ _ _ hkr] at hk
          have := h k 0 hk
          omega
      · rw [hreg] at hk
        by_cases hkr : k = r
        · subst hkr
          rw [Registry.store_same] at hk
          simp at hk
        · rw [Registry.store_other _ _ _ _ hkr] at hk
          have := h k 0 hk
          omega
    | detach bridgeName d =>
      refine ⟨⟨bridgeName, d, rfl⟩, ?_⟩
      intro herr
      have := hdetach d.env d.portInfo bridgeName d.isL2Connect herr k 0 hk
      omega

/-- Witness for C18 (amended): the table `pf0vf1 ↦ 1`; the Detach whose del-port
command fails leaves count 0 and returns an error. -/
theorem no_zero_count_after_success_witness :
    (Registry.countsAtLeast sampleRegistry1 1 ∧ Registry.countsBelow sampleRegistry1 maxInt ∧
      Registry.countsBelow sampleRegistry1 (maxInt + 1)) ∧
    ((State.step ⟨sampleRegistry1, Bridge.empty⟩
      (.detach "br0" sampleDetachFailing)).parentIfRefCount "pf0vf1" = some 0 ∧
      (Op.detach "br0" sampleDetachFailing).err sampleRegistry1 ≠ none) ∧
    (∀ (env : Env) (ctx : Ctx) (conn : Connection) (bridgeName : String) (isClient : Bool),
      Registry.countsAtLeast
        (setupVF env ctx conn bridgeName sampleRegistry1 isClient).parentIfRefCount 1) ∧
    (∀ (env : Env) (portInfo : OvsPortInfo) (bridgeName : String) (isL2Connect : Bool),
      (resetVF env portInfo sampleRegistry1 bridgeName isL2Connect).err = none →
      Registry.countsAtLeast
        (resetVF env portInfo sampleRegistry1 bridgeName isL2Connect).parentIfRefCountMap 1) ∧
    (∀ (b : Bridge) (op : Op) (k : String),
      (State.step ⟨sampleRegistry1, b⟩ op).parentIfRefCount k = some 0 →
      (∃ bridgeName d, op = .detach bridgeName d) ∧ op.err sampleRegistry1 ≠ none) :=
  have hone : ∀ k c, sampleRegistry1 k = some c → c = 1 := by
    intro k c hk
    by_cases hk1 : k = "pf0vf1" <;>
      simp [sampleRegistry1, Registry.store, Registry.empty, hk1] at hk
    omega
  have h : Registry.countsAtLeast sampleRegistry1 1 := by
    intro k c hk
    have := hone k c hk
    omega
  have hmax : Registry.countsBelow sampleRegistry1 maxInt := by
    intro k c hk
    have := hone k c hk
    unfold maxInt
    omega
  have hwf : Registry.countsBelow sampleRegistry1 (maxInt + 1) := by
    intro k c hk
    have := hone k c hk
    unfold maxInt
    omega
  ⟨⟨h, hmax, hwf⟩, ⟨by decide, by decide⟩,
    (no_zero_count_after_success sampleRegistry1 h).1 hmax,
    (no_zero_count_after_success sampleRegistry1 h).2.1,
    (no_zero_count_after_success sampleRegistry1 h).2.2 hwf⟩

end Sriov
